import Mathlib

/-!
Verification of the cei-scoring scoring pipeline.

This file gives a shallow embedding, in Lean 4, of the parts of the
repository needed to settle the frozen claims:

* `scoring-scripts/utils/response_parser.py` — score extraction from model
  responses (JSON located in text, score shapes, averaging, rounding);
* `scoring-scripts/utils/tool_definitions.py`, `tool_handlers.py`,
  `web_search.py` — the tool layer;
* `scoring-scripts/score_services.py` — the per-service attempt machine
  (tool-iteration loop, retry loop with jittered backoff), the run pipeline
  (first concurrent pass, sequential second pass, result records, scores
  file, failed-services file) and the append-mode reconciler.

Modelling conventions:

* Python/JSON values are modelled by the inductive type `Json`; numbers are
  rationals (`ℚ`); Python exceptions are modelled by `Except PyErr`.
* Python strings are modelled by `String`/`List Char` (text scanned by
  `str.find` is handled at the `List Char` level).
* External effects (the Bedrock model call, the DuckDuckGo search backend,
  `random.uniform`) are oracle parameters of the embedded functions.
* The concurrent first pass is modelled with results in input order; the
  claims settled here are insensitive to completion order.
-/

/-- Characters `{` and `}` used when building or scanning JSON text. -/
def obraceC : Char := Char.ofNat 123

/-- Closing brace character. -/
def cbraceC : Char := Char.ofNat 125

/-- Model of a parsed JSON / Python value (numbers as rationals). -/
inductive Json where
  | null : Json
  | bool : Bool → Json
  | num : ℚ → Json
  | str : String → Json
  | arr : List Json → Json
  | obj : List (String × Json) → Json

mutual

/-- Structural boolean equality on JSON values (model of Python `==` on
values decoded from JSON). -/
def jsonBEq : Json → Json → Bool
  | .null, .null => true
  | .bool a, .bool b => a == b
  | .num a, .num b => a == b
  | .str a, .str b => a == b
  | .arr xs, .arr ys => jsonBEqList xs ys
  | .obj fs, .obj gs => jsonBEqFields fs gs
  | _, _ => false

/-- Elementwise equality of JSON arrays. -/
def jsonBEqList : List Json → List Json → Bool
  | [], [] => true
  | x :: xs, y :: ys => jsonBEq x y && jsonBEqList xs ys
  | _, _ => false

/-- Fieldwise equality of JSON objects. -/
def jsonBEqFields : List (String × Json) → List (String × Json) → Bool
  | [], [] => true
  | (k, v) :: fs, (k', v') :: gs => k == k' && jsonBEq v v' && jsonBEqFields fs gs
  | _, _ => false

end

instance : BEq Json := ⟨jsonBEq⟩

mutual

/-- Decidable equality of JSON values. -/
def jsonDecEq : (a b : Json) → Decidable (a = b)
  | .null, .null => isTrue rfl
  | .bool a, .bool b =>
      match decEq a b with
      | isTrue h => isTrue (h ▸ rfl)
      | isFalse h => isFalse (fun hh => h (Json.bool.inj hh))
  | .num a, .num b =>
      match decEq a b with
      | isTrue h => isTrue (h ▸ rfl)
      | isFalse h => isFalse (fun hh => h (Json.num.inj hh))
  | .str a, .str b =>
      match decEq a b with
      | isTrue h => isTrue (h ▸ rfl)
      | isFalse h => isFalse (fun hh => h (Json.str.inj hh))
  | .arr xs, .arr ys =>
      match jsonDecEqList xs ys with
      | isTrue h => isTrue (h ▸ rfl)
      | isFalse h => isFalse (fun hh => h (Json.arr.inj hh))
  | .obj fs, .obj gs =>
      match jsonDecEqPairs fs gs with
      | isTrue h => isTrue (h ▸ rfl)
      | isFalse h => isFalse (fun hh => h (Json.obj.inj hh))
  | .null, .bool _ => isFalse (fun hh => Json.noConfusion hh)
  | .null, .num _ => isFalse (fun hh => Json.noConfusion hh)
  | .null, .str _ => isFalse (fun hh => Json.noConfusion hh)
  | .null, .arr _ => isFalse (fun hh => Json.noConfusion hh)
  | .null, .obj _ => isFalse (fun hh => Json.noConfusion hh)
  | .bool _, .null => isFalse (fun hh => Json.noConfusion hh)
  | .bool _, .num _ => isFalse (fun hh => Json.noConfusion hh)
  | .bool _, .str _ => isFalse (fun hh => Json.noConfusion hh)
  | .bool _, .arr _ => isFalse (fun hh => Json.noConfusion hh)
  | .bool _, .obj _ => isFalse (fun hh => Json.noConfusion hh)
  | .num _, .null => isFalse (fun hh => Json.noConfusion hh)
  | .num _, .bool _ => isFalse (fun hh => Json.noConfusion hh)
  | .num _, .str _ => isFalse (fun hh => Json.noConfusion hh)
  | .num _, .arr _ => isFalse (fun hh => Json.noConfusion hh)
  | .num _, .obj _ => isFalse (fun hh => Json.noConfusion hh)
  | .str _, .null => isFalse (fun hh => Json.noConfusion hh)
  | .str _, .bool _ => isFalse (fun hh => Json.noConfusion hh)
  | .str _, .num _ => isFalse (fun hh => Json.noConfusion hh)
  | .str _, .arr _ => isFalse (fun hh => Json.noConfusion hh)
  | .str _, .obj _ => isFalse (fun hh => Json.noConfusion hh)
  | .arr _, .null => isFalse (fun hh => Json.noConfusion hh)
  | .arr _, .bool _ => isFalse (fun hh => Json.noConfusion hh)
  | .arr _, .num _ => isFalse (fun hh => Json.noConfusion hh)
  | .arr _, .str _ => isFalse (fun hh => Json.noConfusion hh)
  | .arr _, .obj _ => isFalse (fun hh => Json.noConfusion hh)
  | .obj _, .null => isFalse (fun hh => Json.noConfusion hh)
  | .obj _, .bool _ => isFalse (fun hh => Json.noConfusion hh)
  | .obj _, .num _ => isFalse (fun hh => Json.noConfusion hh)
  | .obj _, .str _ => isFalse (fun hh => Json.noConfusion hh)
  | .obj _, .arr _ => isFalse (fun hh => Json.noConfusion hh)

/-- Decidable equality of JSON arrays. -/
def jsonDecEqList : (xs ys : List Json) → Decidable (xs = ys)
  | [], [] => isTrue rfl
  | [], _ :: _ => isFalse (fun hh => List.noConfusion hh)
  | _ :: _, [] => isFalse (fun hh => List.noConfusion hh)
  | x :: xs, y :: ys =>
      match jsonDecEq x y with
      | isTrue h1 =>
          match jsonDecEqList xs ys with
          | isTrue h2 => isTrue (by rw [h1, h2])
          | isFalse h2 => isFalse (fun hh => h2 (List.cons.inj hh).2)
      | isFalse h1 => isFalse (fun hh => h1 (List.cons.inj hh).1)

/-- Decidable equality of JSON object field lists. -/
def jsonDecEqPairs : (xs ys : List (String × Json)) → Decidable (xs = ys)
  | [], [] => isTrue rfl
  | [], _ :: _ => isFalse (fun hh => List.noConfusion hh)
  | _ :: _, [] => isFalse (fun hh => List.noConfusion hh)
  | (k, v) :: xs, (k', v') :: ys =>
      match decEq k k' with
      | isTrue hk =>
          match jsonDecEq v v' with
          | isTrue h1 =>
              match jsonDecEqPairs xs ys with
              | isTrue h2 => isTrue (by rw [hk, h1, h2])
              | isFalse h2 => isFalse (fun hh => h2 (List.cons.inj hh).2)
          | isFalse h1 =>
              isFalse (fun hh => h1 (congrArg Prod.snd (List.cons.inj hh).1))
      | isFalse hk =>
          isFalse (fun hh => hk (congrArg Prod.fst (List.cons.inj hh).1))

end

instance : DecidableEq Json := jsonDecEq

/-- Model of the Python exceptions the embedded code can raise. -/
inductive PyErr where
  | typeError (msg : String)
  | valueError (msg : String)
  | attributeError (msg : String)
  | keyError (msg : String)
  | decodeError (msg : String)
deriving DecidableEq

/-- Model of Python `str(e)` on an exception: the carried message. -/
def pyErrStr : PyErr → String
  | .typeError m => m
  | .valueError m => m
  | .attributeError m => m
  | .keyError m => m
  | .decodeError m => m

/-- Lookup of a key in an association-list model of a Python dict. -/
def lookupKey {α : Type} (fields : List (String × α)) (k : String) : Option α :=
  match fields with
  | [] => none
  | (k', v) :: rest => if k' = k then some v else lookupKey rest k

/-- Model of Python dict assignment `d[k] = v`: updates the value in place
when the key is present (keeping its position), appends otherwise. -/
def dictInsert {α : Type} (fields : List (String × α)) (k : String) (v : α) :
    List (String × α) :=
  match fields with
  | [] => [(k, v)]
  | (k', v') :: rest =>
      if k' = k then (k', v) :: rest else (k', v') :: dictInsert rest k v

/-- Model of Python `d.pop(k, None)`: the fields with key `k` removed. -/
def dictRemove {α : Type} (fields : List (String × α)) (k : String) :
    List (String × α) :=
  fields.filter (fun p => p.1 != k)

/-- Model of Python truthiness (`if x:`) on a JSON value. -/
def jsonTruthy : Json → Bool
  | .null => false
  | .bool b => b
  | .num q => q != 0
  | .str s => s != ""
  | .arr xs => !xs.isEmpty
  | .obj fs => !fs.isEmpty

/-- Model of Python `d.get(k, dflt)`: raises `AttributeError` when the
receiver is not a dict. -/
def pyGetDef (j : Json) (k : String) (dflt : Json) : Except PyErr Json :=
  match j with
  | .obj fs => .ok ((lookupKey fs k).getD dflt)
  | _ => .error (.attributeError "object has no attribute get")

/-- Model of Python `d[k]` for a string key. -/
def pyGetItem (j : Json) (k : String) : Except PyErr Json :=
  match j with
  | .obj fs =>
      match lookupKey fs k with
      | some v => .ok v
      | none => .error (.keyError k)
  | _ => .error (.typeError "value is not subscriptable by a string key")

/-- Prefix of a found-substring search: returns the index of the first
occurrence of `pat` in the text, starting the count at `i`. -/
def findSubAux (pat : List Char) : List Char → ℕ → Option ℕ
  | [], i => if pat.isEmpty then some i else none
  | c :: rest, i =>
      if pat.isPrefixOf (c :: rest) then some i
      else findSubAux pat rest (i + 1)

/-- Model of Python `text.find(pat)` (index of first occurrence). -/
def findSub (pat text : List Char) : Option ℕ := findSubAux pat text 0

/-- Model of Python `pat in text` for strings. -/
def containsSub (pat text : List Char) : Bool := (findSub pat text).isSome

/-- Substring containment on `String`. -/
def strContainsSub (pat s : String) : Bool := containsSub pat.data s.data

/-- Model of Python `text.find(pat, start)`. -/
def findFrom (pat text : List Char) (start : ℕ) : Option ℕ :=
  findSubAux pat (text.drop start) start

/-- Model of Python slicing `text[a:b]` for `0 ≤ a ≤ b`. -/
def sliceList (t : List Char) (a b : ℕ) : List Char := (t.drop a).take (b - a)

/-- Model of Python `in` on a JSON value (`k in x`): key membership for a
dict, element membership for a list, substring for a string; `TypeError`
otherwise. -/
def pyContainsStr (k : String) (j : Json) : Except PyErr Bool :=
  match j with
  | .obj fs => .ok (fs.any (fun p => p.1 == k))
  | .arr xs => .ok (xs.any (fun x => x == Json.str k))
  | .str s => .ok (strContainsSub k s)
  | _ => .error (.typeError "argument of type is not iterable")

/-- Model of Python iteration `for x in j`: list elements, string
characters, dict keys; `TypeError` otherwise. -/
def pyIter (j : Json) : Except PyErr (List Json) :=
  match j with
  | .arr xs => .ok xs
  | .str s => .ok (s.data.map (fun c => Json.str (String.mk [c])))
  | .obj fs => .ok (fs.map (fun p => Json.str p.1))
  | _ => .error (.typeError "value is not iterable")

/-- Whitespace characters removed by Python `str.strip()`. -/
def isPySpace (c : Char) : Bool :=
  c = ' ' || c = '\t' || c = '\n' || c = '\r' ||
  c = Char.ofNat 11 || c = Char.ofNat 12

/-- Model of Python `str.strip()` on a character list. -/
def stripChars (l : List Char) : List Char :=
  ((l.dropWhile isPySpace).reverse.dropWhile isPySpace).reverse

/-- Numeric value of a list of decimal digit characters. -/
def digitsToNat (ds : List Char) : ℕ :=
  ds.foldl (fun acc c => acc * 10 + (c.toNat - 48)) 0

/-- Unsigned core of float-literal reading: digits with an optional
fractional part (at least one digit overall). -/
def floatCore (l : List Char) : Option ℚ :=
  let ip := l.takeWhile Char.isDigit
  let rest := l.drop ip.length
  match rest with
  | [] => if ip.isEmpty then none else some (digitsToNat ip)
  | '.' :: fp =>
      if fp.all Char.isDigit && (!ip.isEmpty || !fp.isEmpty) then
        some ((digitsToNat ip : ℚ) + (digitsToNat fp : ℚ) / 10 ^ fp.length)
      else none
  | _ => none

/-- Model of Python `float(s)` on a string: strip, optional sign, decimal
literal. -/
def floatOfString (s : String) : Option ℚ :=
  let l := stripChars s.data
  match l with
  | '-' :: r => (floatCore r).map (fun q => -q)
  | '+' :: r => floatCore r
  | _ => floatCore l

/-- Model of Python `float(x)` on a JSON value: numbers and booleans
convert, numeric strings parse, anything else raises. -/
def pyFloat (j : Json) : Except PyErr ℚ :=
  match j with
  | .num q => .ok q
  | .bool b => .ok (if b then 1 else 0)
  | .str s =>
      match floatOfString s with
      | some q => .ok q
      | none => .error (.valueError "could not convert string to float")
  | _ => .error (.typeError "float() argument must be a string or a real number")

/-- Round-half-to-even to an integer, as Python `round` does (stated via
the executable `Rat.floor`). -/
def halfEvenRound (x : ℚ) : ℤ :=
  if x - x.floor < 1 / 2 then x.floor
  else if 1 / 2 < x - x.floor then x.floor + 1
  else if x.floor % 2 = 0 then x.floor else x.floor + 1

/-- Model of Python `round(x, 2)`. -/
def pyRound2 (q : ℚ) : ℚ := (halfEvenRound (q * 100) : ℚ) / 100

/-- JSON whitespace skipped between tokens by `json.loads`. -/
def skipWs (l : List Char) : List Char :=
  l.dropWhile (fun c => c = ' ' || c = '\t' || c = '\n' || c = '\r')

/-- String-literal body reading for the `json.loads` model (after the
opening quote); supports the common escapes. -/
def parseStrBody : List Char → List Char → Option (String × List Char)
  | [], _ => none
  | c :: rest, acc =>
      if c = '"' then some (String.mk acc.reverse, rest)
      else if c = '\\' then
        match rest with
        | [] => none
        | e :: rest2 =>
            let esc : Option Char :=
              if e = '"' then some '"'
              else if e = '\\' then some '\\'
              else if e = '/' then some '/'
              else if e = 'n' then some '\n'
              else if e = 't' then some '\t'
              else if e = 'r' then some '\r'
              else if e = 'b' then some (Char.ofNat 8)
              else if e = 'f' then some (Char.ofNat 12)
              else none
            match esc with
            | some c' => parseStrBody rest2 (c' :: acc)
            | none => none
      else parseStrBody rest (c :: acc)

/-- Unsigned number reading for the `json.loads` model. -/
def parseNumCore (l : List Char) : Option (ℚ × List Char) :=
  let ip := l.takeWhile Char.isDigit
  if ip.isEmpty then none
  else
    let rest := l.drop ip.length
    match rest with
    | '.' :: r2 =>
        let fp := r2.takeWhile Char.isDigit
        if fp.isEmpty then none
        else
          some ((digitsToNat ip : ℚ) + (digitsToNat fp : ℚ) / 10 ^ fp.length,
            r2.drop fp.length)
    | _ => some ((digitsToNat ip : ℚ), rest)

/-- Number reading with optional leading minus. -/
def parseNumTok (l : List Char) : Option (ℚ × List Char) :=
  match l with
  | '-' :: r => (parseNumCore r).map (fun p => (-p.1, p.2))
  | _ => parseNumCore l

mutual

/-- Fueled recursive-descent value reading for the `json.loads` model. -/
def parseVal : ℕ → List Char → Option (Json × List Char)
  | 0, _ => none
  | fuel + 1, l =>
      match skipWs l with
      | [] => none
      | c :: rest =>
          if c = '"' then
            (parseStrBody rest []).map (fun p => (Json.str p.1, p.2))
          else if c = obraceC then
            match skipWs rest with
            | c2 :: rest2 =>
                if c2 = cbraceC then some (Json.obj [], rest2)
                else parseMembers fuel (skipWs rest) []
            | [] => none
          else if c = '[' then
            match skipWs rest with
            | c2 :: rest2 =>
                if c2 = ']' then some (Json.arr [], rest2)
                else parseItems fuel (skipWs rest) []
            | [] => none
          else if ("true".data).isPrefixOf (c :: rest) then
            some (Json.bool true, (c :: rest).drop 4)
          else if ("false".data).isPrefixOf (c :: rest) then
            some (Json.bool false, (c :: rest).drop 5)
          else if ("null".data).isPrefixOf (c :: rest) then
            some (Json.null, (c :: rest).drop 4)
          else
            (parseNumTok (c :: rest)).map (fun p => (Json.num p.1, p.2))

/-- Object-member reading; duplicate keys keep the first position and the
last value, as Python dicts do. -/
def parseMembers : ℕ → List Char → List (String × Json) →
    Option (Json × List Char)
  | 0, _, _ => none
  | fuel + 1, l, acc =>
      match skipWs l with
      | [] => none
      | c :: rest =>
          if c = '"' then
            match parseStrBody rest [] with
            | some (k, r2) =>
                match skipWs r2 with
                | ':' :: r3 =>
                    match parseVal fuel r3 with
                    | some (v, r4) =>
                        let acc2 := dictInsert acc k v
                        match skipWs r4 with
                        | ',' :: r5 => parseMembers fuel r5 acc2
                        | c2 :: r5 =>
                            if c2 = cbraceC then some (Json.obj acc2, r5)
                            else none
                        | [] => none
                    | none => none
                | _ => none
            | none => none
          else none

/-- Array-item reading. -/
def parseItems : ℕ → List Char → List Json → Option (Json × List Char)
  | 0, _, _ => none
  | fuel + 1, l, acc =>
      match parseVal fuel l with
      | some (v, r) =>
          match skipWs r with
          | ',' :: r2 => parseItems fuel r2 (acc ++ [v])
          | c :: r2 => if c = ']' then some (Json.arr (acc ++ [v]), r2) else none
          | [] => none
      | none => none

end

/-- Model of Python `json.loads`: reads one value and requires the rest of
the input to be whitespace; `none` models `json.JSONDecodeError`. -/
def jsonLoads (l : List Char) : Option Json :=
  match parseVal (l.length + 2) l with
  | some (v, rest) => if (skipWs rest).isEmpty then some v else none
  | none => none

/-- String-literal escaping for the `json.dumps` model. -/
def escStr (s : String) : List Char :=
  '"' :: (s.data.foldr (fun c acc =>
    (if c = '"' then ['\\', '"']
     else if c = '\\' then ['\\', '\\']
     else if c = '\n' then ['\\', 'n']
     else if c = '\t' then ['\\', 't']
     else if c = '\r' then ['\\', 'r']
     else [c]) ++ acc) []) ++ ['"']

/-- Decimal digits of the fractional part of `q` (with `0 ≤ q < 1`),
emitted until exhausted or out of fuel. -/
def fracDigits : ℕ → ℚ → List Char
  | 0, _ => []
  | fuel + 1, q =>
      if q = 0 then []
      else
        let q10 := q * 10
        let d := ⌊q10⌋
        Char.ofNat (48 + d.toNat) :: fracDigits fuel (q10 - (d : ℚ))

/-- Schematic decimal rendering of a rational for the `json.dumps` model
(integers without a decimal point; no theorem inspects these bytes). -/
def numDumps (q : ℚ) : List Char :=
  if q.den = 1 then (toString q.num).data
  else
    (if q < 0 then ['-'] else []) ++ (toString ⌊|q|⌋).data ++
      '.' :: fracDigits 32 (|q| - (⌊|q|⌋ : ℚ))

mutual

/-- Model of Python `json.dumps` with its default separators. -/
def jsonDumps : Json → List Char
  | .null => "null".data
  | .bool true => "true".data
  | .bool false => "false".data
  | .num q => numDumps q
  | .str s => escStr s
  | .arr xs => '[' :: jsonDumpsItems xs ++ [']']
  | .obj fs => obraceC :: jsonDumpsFields fs ++ [cbraceC]

/-- Comma-separated rendering of array items. -/
def jsonDumpsItems : List Json → List Char
  | [] => []
  | [x] => jsonDumps x
  | x :: y :: rest => jsonDumps x ++ ',' :: ' ' :: jsonDumpsItems (y :: rest)

/-- Comma-separated rendering of object fields. -/
def jsonDumpsFields : List (String × Json) → List Char
  | [] => []
  | [(k, v)] => escStr k ++ ':' :: ' ' :: jsonDumps v
  | (k, v) :: f :: rest =>
      escStr k ++ ':' :: ' ' :: jsonDumps v ++ ',' :: ' ' :: jsonDumpsFields (f :: rest)

end

/-!
Embedding of `scoring-scripts/utils/response_parser.py`.
-/

/-- All elements as Lean strings when every part is a Python string. -/
def allStrings : List Json → Option (List String)
  | [] => some []
  | .str s :: rest => (allStrings rest).map (fun ss => s :: ss)
  | _ => none

/-- Model of Python `'\n'.join(parts)`: `TypeError` unless every part is a
string. -/
def joinStrParts (parts : List Json) : Except PyErr String :=
  match allStrings parts with
  | some ss => .ok (String.intercalate "\n" ss)
  | none => .error (.typeError "sequence item: expected str instance")

/-- Model of `extract_tool_requests` (response_parser.py:15): collects the
content blocks that contain a `toolUse` entry. -/
def extract_tool_requests (response : Json) : Except PyErr (List Json) :=
  match pyGetDef response "output" (Json.obj []) with
  | .error e => .error e
  | .ok out =>
      match pyGetDef out "message" (Json.obj []) with
      | .error e => .error e
      | .ok message =>
          match pyGetDef message "content" (Json.arr []) with
          | .error e => .error e
          | .ok content =>
              match pyIter content with
              | .error e => .error e
              | .ok blocks =>
                  blocks.foldlM (fun acc b =>
                    match pyContainsStr "toolUse" b with
                    | .error e => Except.error e
                    | .ok c => Except.ok (if c then acc ++ [b] else acc)) ([] : List Json)

/-- Model of `extract_text_from_response` (response_parser.py:58): joins the
`text` entries of the content blocks with newlines. -/
def extract_text_from_response (response : Json) : Except PyErr String :=
  match pyGetDef response "output" (Json.obj []) with
  | .error e => .error e
  | .ok out =>
      match pyGetDef out "message" (Json.obj []) with
      | .error e => .error e
      | .ok message =>
          match pyGetDef message "content" (Json.arr []) with
          | .error e => .error e
          | .ok content =>
              match pyIter content with
              | .error e => .error e
              | .ok blocks =>
                  match blocks.foldlM (fun acc b =>
                    match pyContainsStr "text" b with
                    | .error e => Except.error e
                    | .ok c =>
                        if c then
                          match pyGetItem b "text" with
                          | .error e => Except.error e
                          | .ok t => Except.ok (acc ++ [t])
                        else Except.ok acc) ([] : List Json) with
                  | .error e => .error e
                  | .ok parts => joinStrParts parts

/-- Pattern scanned for a fenced JSON code block. -/
def patJson : List Char := "```json".data

/-- Closing fence pattern. -/
def patFence : List Char := "```".data

/-- Brace-depth scan of `parse_json_from_text` (response_parser.py:111):
index one past the brace closing the object opened at the scan start. -/
def braceScanEnd : List Char → ℕ → ℤ → Option ℕ
  | [], _, _ => none
  | c :: rest, i, depth =>
      if c = obraceC then braceScanEnd rest (i + 1) (depth + 1)
      else if c = cbraceC then
        if depth - 1 = 0 then some (i + 1) else braceScanEnd rest (i + 1) (depth - 1)
      else braceScanEnd rest (i + 1) depth

/-- Fallback branch of `parse_json_from_text`: first `{`, matching `}` by
depth counting, then `json.loads` of the slice. -/
def braceFallback (text : List Char) : Option Json :=
  match findSub [obraceC] text with
  | none => none
  | some j =>
      match braceScanEnd (text.drop j) j 0 with
      | none => none
      | some e => jsonLoads (stripChars (sliceList text j e))

/-- Model of `parse_json_from_text` (response_parser.py:79): prefers the
first ```json fenced block, falling back to a brace-delimited scan. -/
def parse_json_from_text (text : List Char) : Option Json :=
  let fromBlock : Option Json :=
    if containsSub patJson text then
      match findSub patJson text with
      | some i =>
          let jstart := i + 7
          let candidate :=
            match findFrom patFence text jstart with
            | none => stripChars (text.drop jstart)
            | some e => stripChars (sliceList text jstart e)
          jsonLoads candidate
      | none => none
    else none
  match fromBlock with
  | some v => some v
  | none => braceFallback text

/-- Per-entry loop of `extract_scores_from_json` (response_parser.py:152):
a dict entry must carry a `score` field (else a `None` parse failure); a
bare value goes through `float` directly, whose `TypeError`/`ValueError`
propagates. -/
def extractEntries : List (String × Json) → List (String × ℚ) →
    Except PyErr (Option (List (String × ℚ)))
  | [], acc => .ok (some acc)
  | (category, value) :: rest, acc =>
      match value with
      | .obj vf =>
          match lookupKey vf "score" with
          | some sv =>
              match pyFloat sv with
              | .error e => .error e
              | .ok q => extractEntries rest (dictInsert acc category q)
          | none => .ok none
      | _ =>
          match pyFloat value with
          | .error e => .error e
          | .ok q => extractEntries rest (dictInsert acc category q)

/-- Iteration `scores.items()`: `AttributeError` unless a dict. -/
def extractFromScores (scores : Json) : Except PyErr (Option (List (String × ℚ))) :=
  match scores with
  | .obj fs => extractEntries fs []
  | _ => .error (.attributeError "object has no attribute items")

/-- Model of `extract_scores_from_json` (response_parser.py:133): locates
the scores at `properties.scores` or `scores`, then extracts each value. -/
def extract_scores_from_json (score_data : Json) :
    Except PyErr (Option (List (String × ℚ))) :=
  match pyContainsStr "properties" score_data with
  | .error e => .error e
  | .ok hasProps =>
      match (if hasProps then
          match pyGetItem score_data "properties" with
          | .error e => .error e
          | .ok props =>
              match pyContainsStr "scores" props with
              | .error e => .error e
              | .ok hasScores =>
                  if hasScores then
                    match pyGetItem score_data "properties" with
                    | .error e => .error e
                    | .ok props2 =>
                        match pyGetItem props2 "scores" with
                        | .error e => .error e
                        | .ok s => .ok (some s)
                  else .ok none
        else (.ok none : Except PyErr (Option Json))) with
      | .error e => .error e
      | .ok (some scores) => extractFromScores scores
      | .ok none =>
          match pyContainsStr "scores" score_data with
          | .error e => .error e
          | .ok hasScores =>
              if hasScores then
                match pyGetItem score_data "scores" with
                | .error e => .error e
                | .ok scores => extractFromScores scores
              else .ok none

/-- Model of `calculate_average_score` (response_parser.py:168): requires
exactly 7 scores and rounds their mean to 2 decimal places. -/
def calculate_average_score (scores : List (String × ℚ)) : Option ℚ :=
  if scores.isEmpty then none
  else if scores.length ≠ 7 then none
  else some (pyRound2 ((scores.map Prod.snd).sum / (scores.length : ℚ)))

/-- Model of `parse_score_response` (response_parser.py:189): the full
text-to-score pipeline; `.ok none` is the reported parse failure, while
`.error` is a Python exception escaping the parser. -/
def parse_score_response (response : Json) : Except PyErr (Option ℚ) :=
  match extract_text_from_response response with
  | .error e => .error e
  | .ok text =>
      if text = "" then .ok none
      else
        match parse_json_from_text text.data with
        | none => .ok none
        | some sd =>
            if !(jsonTruthy sd) then .ok none
            else
              match extract_scores_from_json sd with
              | .error e => .error e
              | .ok none => .ok none
              | .ok (some scores) =>
                  if scores.isEmpty then .ok none
                  else
                    match calculate_average_score scores with
                    | none => .ok none
                    | some avg => .ok (some avg)

/-- Model of `get_stop_reason` (response_parser.py:231). -/
def get_stop_reason (response : Json) : Except PyErr Json :=
  pyGetDef response "stopReason" (Json.str "unknown")

/-- Model of `is_tool_use_response` (response_parser.py:244). -/
def is_tool_use_response (response : Json) : Except PyErr Bool :=
  match get_stop_reason response with
  | .error e => .error e
  | .ok sr => .ok (sr == Json.str "tool_use")

/-- Model of `get_response_message` (response_parser.py:257). -/
def get_response_message (response : Json) : Except PyErr Json :=
  match pyGetDef response "output" (Json.obj []) with
  | .error e => .error e
  | .ok out => pyGetDef out "message" (Json.obj [])

/-!
Embedding of `scoring-scripts/utils/web_search.py`,
`tool_definitions.py` and `tool_handlers.py`.
-/

/-- Formatted search result handed back to the model. -/
structure SearchResult where
  title : String
  url : String
  snippet : String
deriving DecidableEq

/-- Raw hit as returned by the search backend (`result.get` fields). -/
structure RawSearchHit where
  title : Option String
  href : Option String
  body : Option String

/-- Oracle for the DuckDuckGo backend: `none` models `ddgs` not installed
(`DDGS_AVAILABLE = False`); otherwise a function from the full query to
either raised-error text or a list of raw hits. -/
def DdgsOracle : Type := Option (String → Except String (List RawSearchHit))

/-- Model of `PROVIDER_DOMAINS` (web_search.py:23). -/
def providerDomains : List (String × List String) :=
  [("Azure", ["learn.microsoft.com", "azure.microsoft.com", "docs.microsoft.com"]),
   ("GCP", ["cloud.google.com"]),
   ("AWS", ["docs.aws.amazon.com", "aws.amazon.com"])]

/-- Model of `search_with_domain_filter` (web_search.py:30): degrades to a
stub result without a backend, rejects unknown providers, restricts the
query to the provider's official domains, and converts a raised search
error into an error-shaped result list. -/
def search_with_domain_filter (ddgs : DdgsOracle) (query provider : String) :
    List SearchResult :=
  match ddgs with
  | none =>
      [⟨"Search Unavailable", "",
        "Web search is not available. Install ddgs: pip install ddgs"⟩]
  | some backend =>
      match lookupKey providerDomains provider with
      | none =>
          [⟨"Invalid Provider", "",
            "Unknown provider \"" ++ provider ++ "\". Use Azure, GCP, or AWS."⟩]
      | some domains =>
          let siteFilters :=
            String.intercalate " OR " (domains.map (fun d => "site:" ++ d))
          let searchQuery := query ++ " (" ++ siteFilters ++ ")"
          match backend searchQuery with
          | .error e =>
              [⟨"Search Error", "", "An error occurred during search: " ++ e⟩]
          | .ok results =>
              results.map (fun r =>
                ⟨r.title.getD "No title", r.href.getD "", r.body.getD ""⟩)

/-- Numbered rendering of search hits (web_search.py:133). -/
def formatHits (i : ℕ) : List SearchResult → List String
  | [] => []
  | r :: rest =>
      ("\n" ++ toString i ++ ". **" ++ r.title ++ "**") ::
      ("   URL: " ++ r.url) :: ("   " ++ r.snippet) :: formatHits (i + 1) rest

/-- Model of `format_search_results_for_model` (web_search.py:116). -/
def format_search_results_for_model (results : List SearchResult) : String :=
  match results with
  | [] => "No results found."
  | r0 :: _ =>
      if r0.title = "Search Unavailable" || r0.title = "Invalid Provider" ||
          r0.title = "Search Error" then
        r0.snippet
      else String.intercalate "\n" (formatHits 1 results)

/-- Model of `search_aws_documentation` (web_search.py:142). -/
def search_aws_documentation (ddgs : DdgsOracle) (serviceName : String) :
    List SearchResult :=
  search_with_domain_filter ddgs (serviceName ++ " features pricing management") "AWS"

/-- Model of `search_azure_documentation` (web_search.py:157). -/
def search_azure_documentation (ddgs : DdgsOracle) (serviceName : String) :
    List SearchResult :=
  search_with_domain_filter ddgs (serviceName ++ " overview features pricing") "Azure"

/-- Model of `search_gcp_documentation` (web_search.py:172). -/
def search_gcp_documentation (ddgs : DdgsOracle) (serviceName : String) :
    List SearchResult :=
  search_with_domain_filter ddgs (serviceName ++ " overview features pricing") "GCP"

/-- Schematic model of Python `str(x)` on a JSON value; it only feeds
prompt and message text that no theorem inspects byte-for-byte. -/
def pyStr : Json → String
  | .null => "None"
  | .bool true => "True"
  | .bool false => "False"
  | .num q => String.mk (numDumps q)
  | .str s => s
  | .arr xs => String.mk (jsonDumps (Json.arr xs))
  | .obj fs => String.mk (jsonDumps (Json.obj fs))

/-- Model of Python `sep.join(x)` on a JSON value. -/
def pyJoin (sep : String) (j : Json) : Except PyErr String :=
  match j with
  | .arr xs =>
      match allStrings xs with
      | some ss => .ok (String.intercalate sep ss)
      | none => .error (.typeError "sequence item: expected str instance")
  | .str s => .ok (String.intercalate sep (s.data.map (fun c => String.mk [c])))
  | _ => .error (.typeError "can only join an iterable")

/-- Separator line `"=" * 50` used in the tool output headers. -/
def sep50 : String := String.mk (List.replicate 50 '=')

/-- Names of the two tools exposed to the model
(tool_definitions.py:11; the prose description strings are opaque data the
claims never inspect and are elided here). -/
def get_tool_definitions : List String :=
  ["get_aws_service_docs", "search_cloud_provider_docs"]

/-- Model of `format_tool_result` (tool_definitions.py:119). -/
def format_tool_result (toolUseId : Json) (content : String) (isError : Bool) :
    Json :=
  Json.obj [("toolResult", Json.obj
    [("toolUseId", toolUseId),
     ("content", Json.arr [Json.obj [("text", Json.str content)]]),
     ("status", Json.str (if isError then "error" else "success"))])]

/-- Model of `create_tool_result_message` (tool_definitions.py:149). -/
def create_tool_result_message (toolResults : List Json) : Json :=
  Json.obj [("role", Json.str "user"), ("content", Json.arr toolResults)]

/-- Model of `execute_aws_docs_tool` (tool_handlers.py:47): a falsy
`service_name` yields the embedded error string (no exception); the search
itself is wrapped so only query building can raise. -/
def execute_aws_docs_tool (ddgs : DdgsOracle) (toolInput : Json) :
    Except PyErr String :=
  match pyGetDef toolInput "service_name" Json.null with
  | .error e => .error e
  | .ok serviceName =>
      match pyGetDef toolInput "focus_areas" (Json.arr []) with
      | .error e => .error e
      | .ok focusAreas =>
          if !(jsonTruthy serviceName) then .ok "Error: service_name is required"
          else
            match (if jsonTruthy focusAreas then
                match serviceName with
                | Json.str s =>
                    match pyJoin " " focusAreas with
                    | .error e => Except.error e
                    | .ok joined => Except.ok (s ++ " " ++ joined)
                | _ => Except.error (.typeError "unsupported operand types for +")
              else Except.ok (pyStr serviceName)) with
            | .error e => .error e
            | .ok query =>
                let results := search_aws_documentation ddgs query
                let formatted := format_search_results_for_model results
                let output := "AWS Documentation for '" ++ pyStr serviceName ++
                  "':\n" ++ sep50 ++ "\n" ++ formatted
                if jsonTruthy focusAreas then
                  match pyJoin ", " focusAreas with
                  | .error e => .error e
                  | .ok joined =>
                      .ok (output ++ "\n\nFocus areas searched: " ++ joined)
                else .ok output

/-- Model of `execute_cloud_docs_search_tool` (tool_handlers.py:90): falsy
`service_name` or `provider` yields the embedded error string; an
unrecognized provider yields an embedded error string as well. -/
def execute_cloud_docs_search_tool (ddgs : DdgsOracle) (toolInput : Json) :
    Except PyErr String :=
  match pyGetDef toolInput "service_name" Json.null with
  | .error e => .error e
  | .ok serviceName =>
      match pyGetDef toolInput "provider" Json.null with
      | .error e => .error e
      | .ok provider =>
          match pyGetDef toolInput "query_context" (Json.str "") with
          | .error e => .error e
          | .ok queryContext =>
              if !(jsonTruthy serviceName) || !(jsonTruthy provider) then
                .ok "Error: service_name and provider are required"
              else
                match (if jsonTruthy queryContext then
                    match serviceName, queryContext with
                    | Json.str s, Json.str qc => Except.ok (s ++ " " ++ qc)
                    | _, _ =>
                        Except.error (PyErr.typeError "unsupported operand types for +")
                  else Except.ok (pyStr serviceName)) with
                | .error e => .error e
                | .ok query =>
                    let resultsOpt : Option (List SearchResult) :=
                      if provider == Json.str "Azure" then
                        some (search_azure_documentation ddgs query)
                      else if provider == Json.str "GCP" then
                        some (search_gcp_documentation ddgs query)
                      else none
                    match resultsOpt with
                    | none =>
                        .ok ("Error: Unknown provider '" ++ pyStr provider ++
                          "'. Use 'Azure' or 'GCP'.")
                    | some results =>
                        let formatted := format_search_results_for_model results
                        let output := pyStr provider ++ " Documentation for '" ++
                          pyStr serviceName ++ "':\n" ++ sep50 ++ "\n" ++ formatted
                        if jsonTruthy queryContext then
                          .ok (output ++ "\n\nContext: " ++ pyStr queryContext)
                        else .ok output

/-- Model of `execute_tool` (tool_handlers.py:22): dispatches on the tool
name and raises `ValueError` for an unrecognized one. -/
def execute_tool (ddgs : DdgsOracle) (toolName toolInput : Json) :
    Except PyErr String :=
  if toolName == Json.str "get_aws_service_docs" then
    execute_aws_docs_tool ddgs toolInput
  else if toolName == Json.str "search_cloud_provider_docs" then
    execute_cloud_docs_search_tool ddgs toolInput
  else .error (.valueError ("Unknown tool: " ++ pyStr toolName))

/-- One iteration of the loop in `process_tool_use_requests`
(tool_handlers.py:176): the id/name/input lookups happen outside the
`try`, the `execute_tool` call inside it, errors becoming error-status
tool results. -/
def handleToolUseBlock (ddgs : DdgsOracle) (b : Json) : Except PyErr Json :=
  match pyGetDef b "toolUse" (Json.obj []) with
  | .error e => .error e
  | .ok toolUse =>
      match pyGetDef toolUse "toolUseId" Json.null with
      | .error e => .error e
      | .ok toolUseId =>
          match pyGetDef toolUse "name" Json.null with
          | .error e => .error e
          | .ok toolName =>
              match pyGetDef toolUse "input" (Json.obj []) with
              | .error e => .error e
              | .ok toolInput =>
                  match execute_tool ddgs toolName toolInput with
                  | .ok resultText =>
                      .ok (format_tool_result toolUseId resultText false)
                  | .error e =>
                      .ok (format_tool_result toolUseId
                        ("Error executing " ++ pyStr toolName ++ ": " ++ pyErrStr e)
                        true)

/-- Model of `process_tool_use_requests` (tool_handlers.py:140). -/
def process_tool_use_requests (ddgs : DdgsOracle) :
    List Json → Except PyErr (List Json)
  | [] => .ok []
  | b :: bs =>
      match handleToolUseBlock ddgs b with
      | .error e => .error e
      | .ok r =>
          match process_tool_use_requests ddgs bs with
          | .error e => .error e
          | .ok rest => .ok (r :: rest)

/-- Model of `should_use_tools` (tool_handlers.py:197): the current policy
always returns true. -/
def should_use_tools (_serviceName _provider : String) : Bool := true

/-!
Embedding of `scoring-scripts/score_services.py`.
-/

/-- Throttling detection on an attempt's failure text
(score_services.py:278). -/
def isThrottlingError (errorStr : String) : Bool :=
  strContainsSub "ThrottlingException" errorStr ||
  strContainsSub "Too many tokens" errorStr

/-- Backoff wait computed between attempts (score_services.py:277): base
`5 * 2 ^ attempt` under throttling, `2 ^ attempt` otherwise, both scaled
by the jitter drawn from `random.uniform(0.5, 1.5)`. -/
def computeWait (errorStr : String) (attempt : ℕ) (jitter : ℚ) : ℚ :=
  if isThrottlingError errorStr then (5 * 2 ^ attempt : ℚ) * jitter
  else (2 ^ attempt : ℚ) * jitter

/-- Failure text raised when the tool-iteration budget is exhausted
(score_services.py:267). -/
def maxIterMsg (maxToolIterations : ℕ) : String :=
  "Maximum tool use iterations (" ++ toString maxToolIterations ++ ") reached"

/-- Per-service user turn appended to the cloned seed
(score_services.py:196). -/
def scoreUserMessage (serviceName provider : String) : Json :=
  Json.obj [("role", Json.str "user"),
    ("content", Json.arr [Json.obj
      [("text", Json.str ("Please score " ++ serviceName ++ " for " ++ provider))]])]

/-- Tool-use iteration loop of `score_service_with_tools`
(score_services.py:219), one attempt. The model call is the oracle
`responder`, indexed by the number of calls made in this attempt; a
`.error` from the oracle models a raised transport error. The fuel is
`maxToolIterations - iter`, mirroring the `while` guard; exceptions inside
the body are converted to their `str(e)` text, as the enclosing `except`
block observes them. -/
def toolLoopGo (ddgs : DdgsOracle) (responder : ℕ → Except String Json)
    (maxToolIterations : ℕ) :
    ℕ → ℕ → List Json → Except String ℚ
  | 0, _iter, _msgs => .error (maxIterMsg maxToolIterations)
  | fuel + 1, iter, msgs =>
      match responder iter with
      | .error e => .error e
      | .ok resp =>
          match is_tool_use_response resp with
          | .error pe => .error (pyErrStr pe)
          | .ok true =>
              match get_response_message resp with
              | .error pe => .error (pyErrStr pe)
              | .ok assistantMsg =>
                  match extract_tool_requests resp with
                  | .error pe => .error (pyErrStr pe)
                  | .ok toolRequests =>
                      match process_tool_use_requests ddgs toolRequests with
                      | .error pe => .error (pyErrStr pe)
                      | .ok toolResults =>
                          toolLoopGo ddgs responder maxToolIterations fuel (iter + 1)
                            (msgs ++ [assistantMsg, create_tool_result_message toolResults])
          | .ok false =>
              match parse_score_response resp with
              | .error pe => .error (pyErrStr pe)
              | .ok none => .error "Failed to parse score from response"
              | .ok (some s) => .ok s

/-- One attempt's tool loop started at iteration 0. -/
def toolLoopRun (ddgs : DdgsOracle) (responder : ℕ → Except String Json)
    (maxToolIterations : ℕ) (msgs : List Json) : Except String ℚ :=
  toolLoopGo ddgs responder maxToolIterations maxToolIterations 0 msgs

/-- Retry loop of `score_service_with_tools` (score_services.py:193):
`remaining` counts the attempts the `for` range still offers; on a failed
attempt that is not the last, the (slept-through) backoff does not affect
the outcome. -/
def scoreAttempts (ddgs : DdgsOracle) (responder : ℕ → ℕ → Except String Json)
    (base : List Json) (serviceName provider : String)
    (maxToolIterations maxRetries : ℕ) :
    ℕ → ℕ → Option ℚ
  | 0, _ => none
  | remaining + 1, attempt =>
      let msgs := base ++ [scoreUserMessage serviceName provider]
      match toolLoopRun ddgs (responder attempt) maxToolIterations msgs with
      | .ok s => some s
      | .error _e =>
          if attempt = maxRetries - 1 then none
          else
            scoreAttempts ddgs responder base serviceName provider
              maxToolIterations maxRetries remaining (attempt + 1)

/-- Model of `score_service_with_tools` (score_services.py:163). The
tool-configuration decision only shapes the request sent to the model
oracle, not the control flow. -/
def score_service_with_tools (ddgs : DdgsOracle)
    (responder : ℕ → ℕ → Except String Json) (base : List Json)
    (serviceName provider : String) (useTools supportsTools : Bool)
    (maxToolIterations maxRetries : ℕ) : Option ℚ :=
  let _toolConfigEnabled :=
    useTools && supportsTools && should_use_tools serviceName provider
  scoreAttempts ddgs responder base serviceName provider
    maxToolIterations maxRetries maxRetries 0

/-- Service record of the input list (`{provider, service_name,
service_alias?}`). -/
structure Service where
  provider : String
  service_name : String
  service_alias : Option String
deriving DecidableEq

/-- Outcome of one `score_service_wrapper` task of the concurrent pass:
either the wrapper's returned record data, or an exception escaping the
task (observed by `future.result()` at score_services.py:740). -/
inductive WrapOutcome where
  | ok (score : Option ℚ)
  | exc (msg : String)

/-- Score carried by a first-pass outcome, when any. -/
def wrapScore : WrapOutcome → Option ℚ
  | .ok s => s
  | .exc _ => none

/-- Python-truthiness filter applied to the alias
(`if service.get('service_alias')`, score_services.py:357). -/
def truthyAlias : Option String → Option String
  | some a => if a = "" then none else some a
  | none => none

/-- JSON value stored in a record's score field. -/
def optScoreJson : Option ℚ → Json
  | some q => Json.num q
  | none => Json.null

/-- Result record built by `score_service_wrapper`
(score_services.py:350). -/
def wrapperRecord (scoreField : String) (svc : Service) (score : Option ℚ) :
    Json :=
  Json.obj ([("provider", Json.str svc.provider),
    ("service_name", Json.str svc.service_name),
    (scoreField, optScoreJson score)] ++
    (match truthyAlias svc.service_alias with
     | some a => [("service_alias", Json.str a)]
     | none => []))

/-- Result record added when the task raised (score_services.py:744): null
score, error text, no alias. -/
def excRecord (scoreField : String) (svc : Service) (msg : String) : Json :=
  Json.obj [("provider", Json.str svc.provider),
    ("service_name", Json.str svc.service_name),
    (scoreField, Json.null), ("error", Json.str msg)]

/-- Record produced for one service by the concurrent pass. -/
def firstPassRecord (scoreField : String) (pass1 : Service → WrapOutcome)
    (svc : Service) : Json :=
  match pass1 svc with
  | .ok s => wrapperRecord scoreField svc s
  | .exc m => excRecord scoreField svc m

/-- Fields of a result record (the pipeline only builds objects). -/
def recFields : Json → List (String × Json)
  | .obj fs => fs
  | _ => []

/-- Field access `r[k]` / `r.get(k)` on a result record. -/
def recGet (r : Json) (k : String) : Json :=
  (lookupKey (recFields r) k).getD Json.null

/-- Check `r[score_field] is None` on a result record. -/
def recScoreIsNull (scoreField : String) (r : Json) : Bool :=
  recGet r scoreField == Json.null

/-- Entry of the `failed_services` list collected after the first pass
(score_services.py:753): always carries the three keys, the alias possibly
`None`. -/
def failedServiceEntry (r : Json) : Json :=
  Json.obj [("provider", recGet r "provider"),
    ("service_name", recGet r "service_name"),
    ("service_alias", recGet r "service_alias")]

/-- Failed-service entries of a result list. -/
def failedServicesOf (scoreField : String) (results : List Json) : List Json :=
  (results.filter (fun r => recScoreIsNull scoreField r)).map failedServiceEntry

/-- Second-pass update of one record (score_services.py:784): assign the
retry score, and pop the error field when the retry succeeded. -/
def applyRetryUpdate (scoreField : String) (score : Option ℚ) (r : Json) :
    Json :=
  let r1 := Json.obj (dictInsert (recFields r) scoreField (optScoreJson score))
  match score with
  | some _ => Json.obj (dictRemove (recFields r1) "error")
  | none => r1

/-- In-place update of the first record matching the retried service name
with a still-null score (score_services.py:785). -/
def updateFirst (scoreField : String) (name : Json) (score : Option ℚ) :
    List Json → List Json
  | [] => []
  | r :: rest =>
      if recGet r "service_name" == name && recScoreIsNull scoreField r then
        applyRetryUpdate scoreField score r :: rest
      else r :: updateFirst scoreField name score rest

/-- Sequential second pass (score_services.py:759): the failed list is
collected once, then each entry is re-scored and its record updated. -/
def secondPass (scoreField : String) (pass2 : Json → Json → Option ℚ)
    (results : List Json) : List Json :=
  (failedServicesOf scoreField results).foldl
    (fun rs fe =>
      updateFirst scoreField (recGet fe "service_name")
        (pass2 (recGet fe "service_name") (recGet fe "provider")) rs)
    results

/-- Identity-only entry written to the failed-services file
(score_services.py:424): provider and name, plus the alias only when
truthy — no score and no error text. -/
def saveFailedEntry (r : Json) : Json :=
  Json.obj ([("provider", recGet r "provider"),
    ("service_name", recGet r "service_name")] ++
    (if jsonTruthy (recGet r "service_alias") then
      [("service_alias", recGet r "service_alias")]
     else []))

/-- End-of-run artifacts of one model's scoring session. -/
structure RunOut where
  results : List Json
  scoresRecords : List Json
  failedRecords : List Json
  scoresLines : List (List Char)
  failedLines : List (List Char)

/-- Fresh-mode run (score_services.py:697): concurrent pass in input
order, sequential second pass, scores file holding exactly the records
with a non-null score, failed file holding identity-only entries for the
rest. -/
def runFresh (scoreField : String) (pass1 : Service → WrapOutcome)
    (pass2 : Json → Json → Option ℚ) (services : List Service) : RunOut :=
  let results1 := services.map (firstPassRecord scoreField pass1)
  let results2 := secondPass scoreField pass2 results1
  let scoresRecords := results2.filter (fun r => !(recScoreIsNull scoreField r))
  let finalFailed := results2.filter (fun r => recScoreIsNull scoreField r)
  { results := results2
    scoresRecords := scoresRecords
    failedRecords := finalFailed.map saveFailedEntry
    scoresLines := scoresRecords.map jsonDumps
    failedLines := (finalFailed.map saveFailedEntry).map jsonDumps }

/-- Lookup in the dedup dict keyed by the `service_name` value. -/
def jlookup (m : List (Json × Json)) (k : Json) : Option Json :=
  match m with
  | [] => none
  | (k', v) :: rest => if k' == k then some v else jlookup rest k

/-- Insert-or-update in the dedup dict. -/
def jdictInsert (m : List (Json × Json)) (k v : Json) : List (Json × Json) :=
  match m with
  | [] => [(k, v)]
  | (k', v') :: rest =>
      if k' == k then (k', v) :: rest else (k', v') :: jdictInsert rest k v

/-- One line of `load_existing_scores` (score_services.py:398): blank
lines are skipped, other lines must decode; records whose score field is
non-null are keyed by their `service_name` value. -/
def loadLine (scoreField : String) (m : List (Json × Json)) (line : List Char) :
    Except PyErr (List (Json × Json)) :=
  if (stripChars line).isEmpty then .ok m
  else
    match jsonLoads line with
    | none => .error (.decodeError "Expecting value")
    | some data =>
        match pyGetDef data scoreField Json.null with
        | .error e => .error e
        | .ok sc =>
            if sc == Json.null then .ok m
            else
              match pyGetItem data "service_name" with
              | .error e => .error e
              | .ok name => .ok (jdictInsert m name data)

/-- Model of `load_existing_scores` (score_services.py:385). -/
def load_existing_scores (scoreField : String) (lines : List (List Char)) :
    Except PyErr (List (Json × Json)) :=
  lines.foldlM (fun m line => loadLine scoreField m line) []

/-- End-of-run artifacts of an append-mode session. -/
structure AppendOut where
  fileLines : List (List Char)
  queried : List Service
  results : List Json
  failedRecords : List Json
  failedLines : List (List Char)

/-- Append-mode run (score_services.py:678): load the existing scores for
deduplication, drop already-scored services, stop before invoking the
orchestrator when nothing is left (the file is untouched), and otherwise
rewrite the file as existing records followed by the new non-null ones. -/
def runAppend (scoreField : String) (pass1 : Service → WrapOutcome)
    (pass2 : Json → Json → Option ℚ) (lines : List (List Char))
    (services : List Service) : Except PyErr AppendOut :=
  match load_existing_scores scoreField lines with
  | .error e => .error e
  | .ok existing =>
      let servicesToScore :=
        services.filter (fun s => (jlookup existing (Json.str s.service_name)).isNone)
      if servicesToScore.isEmpty then
        .ok { fileLines := lines, queried := [], results := [],
              failedRecords := [], failedLines := [] }
      else
        let results1 := servicesToScore.map (firstPassRecord scoreField pass1)
        let results2 := secondPass scoreField pass2 results1
        let allResults := existing.map Prod.snd ++
          results2.filter (fun r => !(recScoreIsNull scoreField r))
        let finalFailed := results2.filter (fun r => recScoreIsNull scoreField r)
        .ok { fileLines := allResults.map jsonDumps
              queried := servicesToScore
              results := results2
              failedRecords := finalFailed.map saveFailedEntry
              failedLines := (finalFailed.map saveFailedEntry).map jsonDumps }

/-- Fresh-mode run with the per-service attempt machine wired in as both
passes, mirroring `main`'s calls of `score_service_wrapper` and the
sequential retry loop. -/
def runFreshFromResponders (scoreField : String) (ddgs : DdgsOracle)
    (responders : Service → ℕ → ℕ → Except String Json)
    (retryResponders : Json → Json → ℕ → ℕ → Except String Json)
    (base : List Json) (useTools supportsTools : Bool)
    (maxToolIterations maxRetries : ℕ) (services : List Service) : RunOut :=
  runFresh scoreField
    (fun svc => WrapOutcome.ok (score_service_with_tools ddgs (responders svc)
      base svc.service_name svc.provider useTools supportsTools
      maxToolIterations maxRetries))
    (fun nameJ provJ => score_service_with_tools ddgs (retryResponders nameJ provJ)
      base (pyStr nameJ) (pyStr provJ) useTools supportsTools
      maxToolIterations maxRetries)
    services

/-!
Heap model of the conversation lists, capturing Python list aliasing: the
shared `base_conversation` lives in one cell, `messages =
base_conversation.copy()` allocates a fresh cell, and `messages.append`
mutates only that fresh cell (score_services.py:199).
-/

/-- Heap of Python list objects holding message dicts. -/
abbrev MsgStore : Type := List (List Json)

/-- Dereference a list object. -/
def storeGet (st : MsgStore) (r : ℕ) : List Json := st.getD r []

/-- Overwrite a list object. -/
def storeSet (st : MsgStore) (r : ℕ) (v : List Json) : MsgStore := st.set r v

/-- Allocate a fresh list object (`list.copy` target). -/
def storeAlloc (st : MsgStore) (v : List Json) : MsgStore × ℕ :=
  (st ++ [v], st.length)

/-- Model of `lst.append(v)` on the list object at `r`. -/
def storeAppend (st : MsgStore) (r : ℕ) (v : Json) : MsgStore :=
  storeSet st r (storeGet st r ++ [v])

/-- Stateful tool loop: identical control flow to `toolLoopGo`, with the
conversation appends performed on the heap cell `msgsRef` in source order
(assistant turn first, tool results second). -/
def toolLoopStGo (ddgs : DdgsOracle) (responder : ℕ → Except String Json)
    (maxToolIterations : ℕ) (msgsRef : ℕ) :
    ℕ → ℕ → MsgStore → Except String ℚ × MsgStore
  | 0, _iter, st => (.error (maxIterMsg maxToolIterations), st)
  | fuel + 1, iter, st =>
      match responder iter with
      | .error e => (.error e, st)
      | .ok resp =>
          match is_tool_use_response resp with
          | .error pe => (.error (pyErrStr pe), st)
          | .ok true =>
              match get_response_message resp with
              | .error pe => (.error (pyErrStr pe), st)
              | .ok assistantMsg =>
                  let st1 := storeAppend st msgsRef assistantMsg
                  match extract_tool_requests resp with
                  | .error pe => (.error (pyErrStr pe), st1)
                  | .ok toolRequests =>
                      match process_tool_use_requests ddgs toolRequests with
                      | .error pe => (.error (pyErrStr pe), st1)
                      | .ok toolResults =>
                          toolLoopStGo ddgs responder maxToolIterations msgsRef
                            fuel (iter + 1)
                            (storeAppend st1 msgsRef (create_tool_result_message toolResults))
          | .ok false =>
              match parse_score_response resp with
              | .error pe => (.error (pyErrStr pe), st)
              | .ok none => (.error "Failed to parse score from response", st)
              | .ok (some s) => (.ok s, st)

/-- Stateful retry loop: every attempt clones the seed cell into a fresh
cell, appends the user turn there, and runs the tool loop on it. -/
def scoreAttemptsSt (ddgs : DdgsOracle) (responder : ℕ → ℕ → Except String Json)
    (baseRef : ℕ) (serviceName provider : String)
    (maxToolIterations maxRetries : ℕ) :
    ℕ → ℕ → MsgStore → Option ℚ × MsgStore
  | 0, _, st => (none, st)
  | remaining + 1, attempt, st =>
      let alloc := storeAlloc st (storeGet st baseRef)
      let msgsRef := alloc.2
      let st1 := storeAppend alloc.1 msgsRef (scoreUserMessage serviceName provider)
      match toolLoopStGo ddgs (responder attempt) maxToolIterations msgsRef
          maxToolIterations 0 st1 with
      | (.ok s, st2) => (some s, st2)
      | (.error _e, st2) =>
          if attempt = maxRetries - 1 then (none, st2)
          else
            scoreAttemptsSt ddgs responder baseRef serviceName provider
              maxToolIterations maxRetries remaining (attempt + 1) st2

/-- Stateful model of scoring one service against the heap holding the
shared seed. -/
def scoreServiceSt (ddgs : DdgsOracle) (responder : ℕ → ℕ → Except String Json)
    (baseRef : ℕ) (serviceName provider : String)
    (maxToolIterations maxRetries : ℕ) (st : MsgStore) : Option ℚ × MsgStore :=
  scoreAttemptsSt ddgs responder baseRef serviceName provider
    maxToolIterations maxRetries maxRetries 0 st

/-!
Theorems. Each claim Cn of the specification review is settled by one
theorem below (with a witness when the theorem has hypotheses, and a
counterexample when the claim as stated fails on the code).
-/

/-- Response whose only content block is one text block, as produced by a
model that answers without tool use. -/
def mkTextResponse (t : String) : Json :=
  Json.obj [("output", Json.obj [("message", Json.obj
    [("role", Json.str "assistant"),
     ("content", Json.arr [Json.obj [("text", Json.str t)]])])]),
    ("stopReason", Json.str "end_turn")]

/-- Success check on an `Except` value. -/
def exceptIsOk {ε α : Type} : Except ε α → Bool
  | .ok _ => true
  | .error _ => false

/-- A model-call outcome that signals tool use and is well-shaped enough
for the tool branch to run (the Converse API contract): the call
succeeded, the stop reason is `tool_use`, and the message/tool-request
extraction and tool execution do not raise. -/
def goodToolTurn (ddgs : DdgsOracle) (r : Except String Json) : Prop :=
  ∃ resp, r = Except.ok resp ∧
    is_tool_use_response resp = Except.ok true ∧
    (∃ m, get_response_message resp = Except.ok m) ∧
    (∃ reqs trs, extract_tool_requests resp = Except.ok reqs ∧
      process_tool_use_requests ddgs reqs = Except.ok trs)

/-- Tool loop under a responder that signals tool use on every turn: the
loop always ends in the max-iterations failure. -/
theorem toolLoopGo_all_tool_use (ddgs : DdgsOracle)
    (responder : ℕ → Except String Json) (maxToolIterations : ℕ)
    (h : ∀ i, i < maxToolIterations → goodToolTurn ddgs (responder i)) :
    ∀ fuel iter msgs, iter + fuel = maxToolIterations →
      toolLoopGo ddgs responder maxToolIterations fuel iter msgs =
        .error (maxIterMsg maxToolIterations) := by
  intro fuel
  induction fuel with
  | zero => intro iter msgs _; rfl
  | succ n ih =>
      intro iter msgs hsum
      have hlt : iter < maxToolIterations := by omega
      obtain ⟨resp, hr, htu, ⟨assistantMsg, hm⟩, reqs, trs, hx, hp⟩ := h iter hlt
      simp only [toolLoopGo, hr, htu, hm, hx, hp]
      exact ih (iter + 1) _ (by omega)

/-- C6: for every attempt at scoring one service, if the model's response
signals tool use on every turn, the per-attempt tool loop terminates: once
the tool-iteration counter reaches the configured maximum, the attempt
ends in the local failure "Maximum tool use iterations (N) reached"
instead of looping indefinitely. -/
theorem c6_tool_loop_bound (ddgs : DdgsOracle)
    (responder : ℕ → Except String Json) (maxToolIterations : ℕ)
    (msgs : List Json)
    (h : ∀ i, i < maxToolIterations → goodToolTurn ddgs (responder i)) :
    toolLoopRun ddgs responder maxToolIterations msgs =
      .error (maxIterMsg maxToolIterations) :=
  toolLoopGo_all_tool_use ddgs responder maxToolIterations h
    maxToolIterations 0 msgs (by omega)

/-- Minimal response that signals tool use. -/
def toolUseStubResponse : Json := Json.obj [("stopReason", Json.str "tool_use")]

/-- Witness for C6 at the default maximum of 3 tool iterations. -/
theorem c6_tool_loop_bound_witness :
    (∀ i, i < 3 →
      goodToolTurn none ((fun _ => Except.ok toolUseStubResponse) i)) ∧
    toolLoopRun none (fun _ => Except.ok toolUseStubResponse) 3 [] =
      .error (maxIterMsg 3) :=
  ⟨fun _ _ => ⟨toolUseStubResponse, rfl, rfl, ⟨Json.obj [], rfl⟩, [], [], rfl, rfl⟩,
   c6_tool_loop_bound none (fun _ => Except.ok toolUseStubResponse) 3 []
     (fun _ _ => ⟨toolUseStubResponse, rfl, rfl, ⟨Json.obj [], rfl⟩, [], [], rfl, rfl⟩)⟩

/-- C7: for every failed attempt at index k that is not the final attempt,
the computed backoff wait lies within [5·2^k·0.5, 5·2^k·1.5] seconds when
the failure text indicates throttling, and within [2^k·0.5, 2^k·1.5]
seconds otherwise; the jitter drawn from `random.uniform(0.5, 1.5)` is a
hypothesis. -/
theorem c7_backoff_bounds (errorStr : String) (k : ℕ) (jitter : ℚ)
    (hj1 : 1 / 2 ≤ jitter) (hj2 : jitter ≤ 3 / 2) :
    (isThrottlingError errorStr = true →
      5 * 2 ^ k * (1 / 2) ≤ computeWait errorStr k jitter ∧
      computeWait errorStr k jitter ≤ 5 * 2 ^ k * (3 / 2)) ∧
    (isThrottlingError errorStr = false →
      2 ^ k * (1 / 2) ≤ computeWait errorStr k jitter ∧
      computeWait errorStr k jitter ≤ 2 ^ k * (3 / 2)) := by
  have hpow : (0 : ℚ) < 2 ^ k := pow_pos (by norm_num) k
  constructor
  · intro h
    unfold computeWait
    rw [h]
    simp only [if_true]
    constructor <;> nlinarith
  · intro h
    unfold computeWait
    rw [h]
    simp only [Bool.false_eq_true, if_false]
    constructor <;> nlinarith

/-- Witness for C7 at a throttling failure text, attempt index 2 and
jitter 1. -/
theorem c7_backoff_bounds_witness :
    ((1 : ℚ) / 2 ≤ 1 ∧ (1 : ℚ) ≤ 3 / 2) ∧
    ((isThrottlingError "ThrottlingException: Rate exceeded" = true →
      5 * 2 ^ 2 * ((1 : ℚ) / 2) ≤
        computeWait "ThrottlingException: Rate exceeded" 2 1 ∧
      computeWait "ThrottlingException: Rate exceeded" 2 1 ≤
        5 * 2 ^ 2 * ((3 : ℚ) / 2)) ∧
     (isThrottlingError "ThrottlingException: Rate exceeded" = false →
      2 ^ 2 * ((1 : ℚ) / 2) ≤
        computeWait "ThrottlingException: Rate exceeded" 2 1 ∧
      computeWait "ThrottlingException: Rate exceeded" 2 1 ≤
        2 ^ 2 * ((3 : ℚ) / 2))) :=
  ⟨by norm_num,
   c7_backoff_bounds "ThrottlingException: Rate exceeded" 2 1
     (by norm_num) (by norm_num)⟩

/-- Score data whose scores live directly under a `scores` key reduce to
the per-entry extraction loop. -/
theorem extract_scores_top (scoresFields : List (String × Json)) :
    extract_scores_from_json (Json.obj [("scores", Json.obj scoresFields)]) =
      extractEntries scoresFields [] := rfl

/-- Scores payload whose first criterion value is a list. -/
def c3BadScores : Json := Json.obj [("scores", Json.obj
  [("infrastructure_management", Json.arr [Json.num 1, Json.num 2]),
   ("operational_maintenance", Json.obj [("score", Json.num 2)])])]

/-- Response text carrying the list-valued criterion. -/
def c3Text : String :=
  "```json\n\x7b\"scores\": \x7b\"infrastructure_management\": [1, 2], \"operational_maintenance\": \x7b\"score\": 2\x7d\x7d\x7d\n```"

/-- Counterexample to C3: a per-criterion value that is a list makes
`float(value)` raise `TypeError`, and that exception escapes both
`extract_scores_from_json` and `parse_score_response` (the parse failure
would be the `.ok none` result, which is not what is returned). -/
theorem c3_counterexample :
    extract_scores_from_json c3BadScores =
      Except.error (PyErr.typeError
        "float() argument must be a string or a real number") ∧
    parse_score_response (mkTextResponse c3Text) =
      Except.error (PyErr.typeError
        "float() argument must be a string or a real number") :=
  ⟨rfl, rfl⟩

/-- C3 amended: a per-criterion score value that is a list or null makes
score extraction raise a `TypeError` that escapes the Response Parser to
the Orchestrator's per-attempt handler (it is not returned as a
ParseFailure); only an object value lacking a `score` field produces the
ParseFailure (`None`) return. -/
theorem c3_amended :
    (∀ (k : String) (v : Json) (rest : List (String × Json)),
      (v = Json.null ∨ ∃ xs, v = Json.arr xs) →
      extract_scores_from_json (Json.obj [("scores", Json.obj ((k, v) :: rest))]) =
        Except.error (PyErr.typeError
          "float() argument must be a string or a real number")) ∧
    (∀ (k : String) (vf : List (String × Json)) (rest : List (String × Json)),
      lookupKey vf "score" = none →
      extract_scores_from_json
          (Json.obj [("scores", Json.obj ((k, Json.obj vf) :: rest))]) =
        Except.ok none) := by
  constructor
  · rintro k v rest (rfl | ⟨xs, rfl⟩) <;> rfl
  · intro k vf rest h
    rw [extract_scores_top]
    simp only [extractEntries]
    rw [h]

/-- Witness for the amended C3 at concrete inputs. -/
theorem c3_amended_witness :
    ((Json.arr [Json.num 1, Json.num 2] = Json.null ∨
      ∃ xs, Json.arr [Json.num 1, Json.num 2] = Json.arr xs) ∧
     extract_scores_from_json (Json.obj [("scores", Json.obj
       [("infrastructure_management", Json.arr [Json.num 1, Json.num 2])])]) =
       Except.error (PyErr.typeError
         "float() argument must be a string or a real number")) ∧
    (lookupKey ([("value", Json.num 3)] : List (String × Json)) "score" = none ∧
     extract_scores_from_json (Json.obj [("scores", Json.obj
       [("infrastructure_management", Json.obj [("value", Json.num 3)])])]) =
       Except.ok none) :=
  ⟨⟨Or.inr ⟨_, rfl⟩,
    c3_amended.1 "infrastructure_management" _ [] (Or.inr ⟨_, rfl⟩)⟩,
   ⟨rfl, c3_amended.2 "infrastructure_management" _ [] rfl⟩⟩

/-- Lookup after a matching head. -/
theorem lookupKey_cons_eq {α : Type} (k : String) (v : α)
    (fs : List (String × α)) : lookupKey ((k, v) :: fs) k = some v := by
  simp [lookupKey]

/-- Lookup past a non-matching head. -/
theorem lookupKey_cons_ne {α : Type} (k' k : String) (v : α)
    (fs : List (String × α)) (h : k' ≠ k) :
    lookupKey ((k', v) :: fs) k = lookupKey fs k := by
  simp [lookupKey, h]

/-- Dict assignment stores the value at its key. -/
theorem lookupKey_dictInsert_eq {α : Type} (fs : List (String × α))
    (k : String) (v : α) : lookupKey (dictInsert fs k v) k = some v := by
  induction fs with
  | nil => simp [dictInsert, lookupKey]
  | cons p rest ih =>
      obtain ⟨k', v'⟩ := p
      by_cases h : k' = k
      · subst h; simp [dictInsert, lookupKey]
      · simp [dictInsert, lookupKey, h, ih]

/-- Dict assignment leaves other keys unchanged. -/
theorem lookupKey_dictInsert_ne {α : Type} (fs : List (String × α))
    (k0 k : String) (v : α) (h : k ≠ k0) :
    lookupKey (dictInsert fs k0 v) k = lookupKey fs k := by
  induction fs with
  | nil => simp [dictInsert, lookupKey, Ne.symm h]
  | cons p rest ih =>
      obtain ⟨k', v'⟩ := p
      by_cases h' : k' = k0
      · subst h'; simp [dictInsert, lookupKey, Ne.symm h]
      · by_cases h'' : k' = k
        · subst h''; simp [dictInsert, lookupKey, h']
        · simp [dictInsert, lookupKey, h', h'', ih]

/-- Key removal leaves other keys unchanged. -/
theorem lookupKey_dictRemove_ne {α : Type} (fs : List (String × α))
    (k0 k : String) (h : k ≠ k0) :
    lookupKey (dictRemove fs k0) k = lookupKey fs k := by
  induction fs with
  | nil => simp [dictRemove, lookupKey]
  | cons p rest ih =>
      obtain ⟨k', v'⟩ := p
      by_cases h' : k' = k0
      · have hf : (k' != k0) = false := by simp [h']
        have hne : k' ≠ k := fun hh => h (hh ▸ h')
        calc lookupKey (dictRemove ((k', v') :: rest) k0) k
            = lookupKey (dictRemove rest k0) k := by
              simp [dictRemove, List.filter_cons, hf]
          _ = lookupKey rest k := ih
          _ = lookupKey ((k', v') :: rest) k :=
              (lookupKey_cons_ne k' k v' rest hne).symm
      · have ht : (k' != k0) = true := by simp [h']
        by_cases h'' : k' = k
        · subst h''
          simp [dictRemove, List.filter_cons, ht, lookupKey]
        · calc lookupKey (dictRemove ((k', v') :: rest) k0) k
              = lookupKey ((k', v') :: dictRemove rest k0) k := by
                simp [dictRemove, List.filter_cons, ht]
            _ = lookupKey (dictRemove rest k0) k :=
                lookupKey_cons_ne _ _ _ _ h''
            _ = lookupKey rest k := ih
            _ = lookupKey ((k', v') :: rest) k :=
                (lookupKey_cons_ne _ _ _ _ h'').symm

/-- Equality test of two string atoms. -/
theorem json_str_beq (a b : String) :
    (Json.str a == Json.str b) = (a == b) := rfl

/-- A stored score value equals null exactly for a missing score. -/
theorem optScoreJson_beq_null (s : Option ℚ) :
    (optScoreJson s == Json.null) = true ↔ s = none := by
  cases s <;> simp [optScoreJson] <;> rfl

/-- The executable rational floor agrees with the floor of the ordered
field structure. -/
theorem ratFloor_eq (q : ℚ) : Rat.floor q = ⌊q⌋ := by
  rw [Rat.floor_def', ← Rat.floor_def]

/-- Round-half-to-even respects integer bounds. -/
theorem halfEvenRound_bounds (y : ℚ) (a b : ℤ)
    (h1 : (a : ℚ) ≤ y) (h2 : y ≤ (b : ℚ)) :
    a ≤ halfEvenRound y ∧ halfEvenRound y ≤ b := by
  unfold halfEvenRound
  rw [ratFloor_eq]
  have hfl : a ≤ ⌊y⌋ := Int.le_floor.mpr h1
  have hfu : ⌊y⌋ ≤ b := by
    have h3 : ⌊y⌋ ≤ ⌊(b : ℚ)⌋ := Int.floor_le_floor h2
    simpa using h3
  have hy : (⌊y⌋ : ℚ) ≤ y := Int.floor_le y
  split_ifs with hA hB hC
  · exact ⟨hfl, hfu⟩
  · have hlt : ⌊y⌋ < b := by
      by_contra hcon
      have hb : ⌊y⌋ = b := le_antisymm hfu (by omega)
      have : y - (⌊y⌋ : ℚ) ≤ 0 := by rw [hb]; linarith
      exact hA (by linarith)
    exact ⟨by omega, by omega⟩
  · exact ⟨hfl, hfu⟩
  · have hlt : ⌊y⌋ < b := by
      by_contra hcon
      have hb : ⌊y⌋ = b := le_antisymm hfu (by omega)
      have : y - (⌊y⌋ : ℚ) ≤ 0 := by rw [hb]; linarith
      exact hA (by linarith)
    exact ⟨by omega, by omega⟩

/-- Rounding to two decimals keeps a value inside [1, 10]. -/
theorem pyRound2_bounds (x : ℚ) (h1 : 1 ≤ x) (h2 : x ≤ 10) :
    1 ≤ pyRound2 x ∧ pyRound2 x ≤ 10 := by
  have h := halfEvenRound_bounds (x * 100) 100 1000
    (by push_cast; linarith) (by push_cast; linarith)
  unfold pyRound2
  obtain ⟨ha, hb⟩ := h
  have ha' : (100 : ℚ) ≤ (halfEvenRound (x * 100) : ℚ) := by exact_mod_cast ha
  have hb' : (halfEvenRound (x * 100) : ℚ) ≤ 1000 := by exact_mod_cast hb
  constructor <;> linarith

/-- A rounded score is an integer number of hundredths: exactly two
decimal places. -/
theorem pyRound2_mul100_int (x : ℚ) :
    ∃ n : ℤ, (n : ℚ) = pyRound2 x * 100 := by
  refine ⟨halfEvenRound (x * 100), ?_⟩
  unfold pyRound2
  field_simp

/-- Sum bounds for a list of rationals within [a, b]. -/
theorem sumBounds (l : List ℚ) (a b : ℚ)
    (h : ∀ x ∈ l, a ≤ x ∧ x ≤ b) :
    a * l.length ≤ l.sum ∧ l.sum ≤ b * l.length := by
  induction l with
  | nil => simp
  | cons x xs ih =>
      have hx := h x (by simp)
      have hxs := ih (fun y hy => h y (by simp [hy]))
      simp only [List.sum_cons, List.length_cons]
      push_cast
      constructor <;> nlinarith [hxs.1, hxs.2, hx.1, hx.2]

/-- Extraction prefix of the scoring pipeline: the per-criterion scores a
response yields before averaging (source steps 1-4 of
`parse_score_response`). -/
def responseScores (r : Json) : Option (List (String × ℚ)) :=
  match extract_text_from_response r with
  | .error _ => none
  | .ok text =>
      if text = "" then none
      else
        match parse_json_from_text text.data with
        | none => none
        | some sd =>
            if !(jsonTruthy sd) then none
            else
              match extract_scores_from_json sd with
              | .ok (some scores) => some scores
              | _ => none

/-- An averaging success pins the score count to 7 and the value to the
rounded mean. -/
theorem calculate_average_eq (scores : List (String × ℚ)) (avg : ℚ)
    (h : calculate_average_score scores = some avg) :
    scores.length = 7 ∧
    avg = pyRound2 ((scores.map Prod.snd).sum / (scores.length : ℚ)) := by
  by_cases h1 : scores.isEmpty
  · rw [calculate_average_score, if_pos h1] at h; simp at h
  · by_cases h2 : scores.length ≠ 7
    · rw [calculate_average_score, if_neg h1, if_pos h2] at h; simp at h
    · rw [calculate_average_score, if_neg h1, if_neg h2] at h
      exact ⟨by omega, by simpa using h.symm⟩

/-- A successfully parsed score is the 2-decimal rounding of the mean of
exactly 7 extracted criterion scores. -/
theorem parse_ok_structure (r : Json) (q : ℚ)
    (h : parse_score_response r = Except.ok (some q)) :
    ∃ scores : List (String × ℚ), responseScores r = some scores ∧
      scores.length = 7 ∧
      q = pyRound2 ((scores.map Prod.snd).sum / (scores.length : ℚ)) := by
  unfold parse_score_response at h
  unfold responseScores
  cases ht : extract_text_from_response r with
  | error e => simp [ht] at h
  | ok text =>
      simp only [ht] at h ⊢
      by_cases htxt : text = ""
      · simp [htxt] at h
      · simp only [if_neg htxt] at h ⊢
        cases hp : parse_json_from_text text.data with
        | none => simp [hp] at h
        | some sd =>
            simp only [hp] at h ⊢
            cases hjt : jsonTruthy sd with
            | false => simp [hjt] at h
            | true =>
                simp only [hjt, Bool.not_true, Bool.false_eq_true, if_false] at h ⊢
                cases hx : extract_scores_from_json sd with
                | error e => simp [hx] at h
                | ok scoresOpt =>
                    cases scoresOpt with
                    | none => simp [hx] at h
                    | some scores =>
                        simp only [hx] at h ⊢
                        cases hemp : scores.isEmpty with
                        | true => simp [hemp] at h
                        | false =>
                            simp only [hemp, Bool.false_eq_true, if_false] at h
                            cases havg : calculate_average_score scores with
                            | none => simp [havg] at h
                            | some avg =>
                                simp only [havg] at h
                                have hq : avg = q := by simpa using h
                                obtain ⟨h7, heq⟩ := calculate_average_eq scores avg havg
                                exact ⟨scores, rfl, h7, by rw [← hq]; exact heq⟩

/-- A tool loop returning a score obtained it from a successfully parsed
response. -/
theorem toolLoopGo_ok_parse (ddgs : DdgsOracle)
    (responder : ℕ → Except String Json) (maxToolIterations : ℕ) :
    ∀ fuel iter msgs q,
      toolLoopGo ddgs responder maxToolIterations fuel iter msgs = Except.ok q →
      ∃ resp, parse_score_response resp = Except.ok (some q) := by
  intro fuel
  induction fuel with
  | zero => intro iter msgs q h; simp [toolLoopGo] at h
  | succ n ih =>
      intro iter msgs q h
      cases hr : responder iter with
      | error e => simp [toolLoopGo, hr] at h
      | ok resp =>
          cases htu : is_tool_use_response resp with
          | error pe => simp [toolLoopGo, hr, htu] at h
          | ok b =>
              cases b with
              | true =>
                  cases hm : get_response_message resp with
                  | error pe => simp [toolLoopGo, hr, htu, hm] at h
                  | ok assistantMsg =>
                      cases hxq : extract_tool_requests resp with
                      | error pe => simp [toolLoopGo, hr, htu, hm, hxq] at h
                      | ok reqs =>
                          cases hpr : process_tool_use_requests ddgs reqs with
                          | error pe => simp [toolLoopGo, hr, htu, hm, hxq, hpr] at h
                          | ok trs =>
                              simp only [toolLoopGo, hr, htu, hm, hxq, hpr] at h
                              exact ih _ _ _ h
              | false =>
                  cases hps : parse_score_response resp with
                  | error pe => simp [toolLoopGo, hr, htu, hps] at h
                  | ok so =>
                      cases so with
                      | none => simp [toolLoopGo, hr, htu, hps] at h
                      | some s =>
                          simp only [toolLoopGo, hr, htu, hps] at h
                          have : s = q := by simpa using h
                          exact ⟨resp, by rw [hps, this]⟩

/-- A retry loop returning a score obtained it from a successfully parsed
response in one of its attempts. -/
theorem scoreAttempts_some_parse (ddgs : DdgsOracle)
    (responder : ℕ → ℕ → Except String Json) (base : List Json)
    (serviceName provider : String) (maxToolIterations maxRetries : ℕ) :
    ∀ remaining attempt q,
      scoreAttempts ddgs responder base serviceName provider
        maxToolIterations maxRetries remaining attempt = some q →
      ∃ resp, parse_score_response resp = Except.ok (some q) := by
  intro remaining
  induction remaining with
  | zero => intro attempt q h; simp [scoreAttempts] at h
  | succ n ih =>
      intro attempt q h
      rw [scoreAttempts] at h
      cases hl : toolLoopRun ddgs (responder attempt) maxToolIterations
          (base ++ [scoreUserMessage serviceName provider]) with
      | ok s =>
          rw [hl] at h
          have : s = q := by simpa using h
          subst this
          exact toolLoopGo_ok_parse ddgs (responder attempt) maxToolIterations
            maxToolIterations 0 _ s hl
      | error e =>
          rw [hl] at h
          by_cases hlast : attempt = maxRetries - 1
          · rw [if_pos hlast] at h; simp at h
          · rw [if_neg hlast] at h
            exact ih _ _ h

/-- The per-service scorer returns only parsed scores. -/
theorem score_service_some_parse (ddgs : DdgsOracle)
    (responder : ℕ → ℕ → Except String Json) (base : List Json)
    (serviceName provider : String) (useTools supportsTools : Bool)
    (maxToolIterations maxRetries : ℕ) (q : ℚ)
    (h : score_service_with_tools ddgs responder base serviceName provider
      useTools supportsTools maxToolIterations maxRetries = some q) :
    ∃ resp, parse_score_response resp = Except.ok (some q) :=
  scoreAttempts_some_parse ddgs responder base serviceName provider
    maxToolIterations maxRetries maxRetries 0 q h

/-- Fields of an object record. -/
theorem recFields_obj (fs : List (String × Json)) :
    recFields (Json.obj fs) = fs := rfl

/-- Equal string atoms compare true. -/
theorem str_beq_self (a : String) : (Json.str a == Json.str a) = true := by
  rw [json_str_beq]; simp

/-- Distinct string atoms compare false. -/
theorem str_beq_ne (a b : String) (h : a ≠ b) :
    (Json.str a == Json.str b) = false := by
  rw [json_str_beq]; simp [h]

/-- Service name stored in a first-pass record. -/
theorem recGet_firstPass_name (sf : String) (p1 : Service → WrapOutcome)
    (svc : Service) :
    recGet (firstPassRecord sf p1 svc) "service_name" =
      Json.str svc.service_name := by
  unfold firstPassRecord
  cases p1 svc with
  | ok s =>
      unfold wrapperRecord recGet
      rw [recFields_obj]
      simp only [List.cons_append, List.nil_append]
      rw [lookupKey_cons_ne _ _ _ _ (by decide), lookupKey_cons_eq]
      rfl
  | exc m =>
      unfold excRecord recGet
      rw [recFields_obj]
      rw [lookupKey_cons_ne _ _ _ _ (by decide), lookupKey_cons_eq]
      rfl

/-- Provider stored in a first-pass record. -/
theorem recGet_firstPass_prov (sf : String) (p1 : Service → WrapOutcome)
    (svc : Service) :
    recGet (firstPassRecord sf p1 svc) "provider" = Json.str svc.provider := by
  unfold firstPassRecord
  cases p1 svc with
  | ok s =>
      unfold wrapperRecord recGet
      rw [recFields_obj]
      simp only [List.cons_append, List.nil_append]
      rw [lookupKey_cons_eq]
      rfl
  | exc m =>
      unfold excRecord recGet
      rw [recFields_obj]
      rw [lookupKey_cons_eq]
      rfl

/-- Score stored in a first-pass record. -/
theorem recGet_firstPass_score (sf : String) (p1 : Service → WrapOutcome)
    (svc : Service) (h1 : sf ≠ "provider") (h2 : sf ≠ "service_name") :
    recGet (firstPassRecord sf p1 svc) sf =
      optScoreJson (wrapScore (p1 svc)) := by
  unfold firstPassRecord
  cases p1 svc with
  | ok s =>
      unfold wrapperRecord recGet wrapScore
      rw [recFields_obj]
      simp only [List.cons_append, List.nil_append]
      rw [lookupKey_cons_ne _ _ _ _ (Ne.symm h1),
        lookupKey_cons_ne _ _ _ _ (Ne.symm h2), lookupKey_cons_eq]
      rfl
  | exc m =>
      unfold excRecord recGet wrapScore
      rw [recFields_obj]
      rw [lookupKey_cons_ne _ _ _ _ (Ne.symm h1),
        lookupKey_cons_ne _ _ _ _ (Ne.symm h2), lookupKey_cons_eq]
      rfl

/-- Nullness of a first-pass record score. -/
theorem recScoreIsNull_firstPass (sf : String) (p1 : Service → WrapOutcome)
    (svc : Service) (h1 : sf ≠ "provider") (h2 : sf ≠ "service_name") :
    recScoreIsNull sf (firstPassRecord sf p1 svc) = true ↔
      wrapScore (p1 svc) = none := by
  unfold recScoreIsNull
  rw [recGet_firstPass_score sf p1 svc h1 h2]
  exact optScoreJson_beq_null _

/-- Service name carried by a failed-service entry. -/
theorem recGet_failedEntry_name (r : Json) :
    recGet (failedServiceEntry r) "service_name" = recGet r "service_name" := by
  unfold failedServiceEntry
  conv_lhs => rw [recGet]
  rw [recFields_obj]
  rw [lookupKey_cons_ne _ _ _ _ (by decide), lookupKey_cons_eq]
  rfl

/-- Provider carried by a failed-service entry. -/
theorem recGet_failedEntry_prov (r : Json) :
    recGet (failedServiceEntry r) "provider" = recGet r "provider" := by
  unfold failedServiceEntry
  conv_lhs => rw [recGet]
  rw [recFields_obj]
  rw [lookupKey_cons_eq]
  rfl

/-- A second-pass update leaves fields other than the score and error
fields unchanged. -/
theorem recGet_applyRetry_ne (sf : String) (sc : Option ℚ) (r : Json)
    (k : String) (h1 : k ≠ sf) (h2 : k ≠ "error") :
    recGet (applyRetryUpdate sf sc r) k = recGet r k := by
  cases sc with
  | some q =>
      show recGet (Json.obj (dictRemove
        (recFields (Json.obj (dictInsert (recFields r) sf
          (optScoreJson (some q))))) "error")) k = recGet r k
      conv_lhs => rw [recGet]
      rw [recFields_obj, recFields_obj, lookupKey_dictRemove_ne _ _ _ h2,
        lookupKey_dictInsert_ne _ _ _ _ h1]
      rfl
  | none =>
      show recGet (Json.obj (dictInsert (recFields r) sf
        (optScoreJson none))) k = recGet r k
      conv_lhs => rw [recGet]
      rw [recFields_obj, lookupKey_dictInsert_ne _ _ _ _ h1]
      rfl

/-- A second-pass update stores the retry score. -/
theorem recGet_applyRetry_score (sf : String) (sc : Option ℚ) (r : Json)
    (h : sf ≠ "error") :
    recGet (applyRetryUpdate sf sc r) sf = optScoreJson sc := by
  cases sc with
  | some q =>
      show recGet (Json.obj (dictRemove
        (recFields (Json.obj (dictInsert (recFields r) sf
          (optScoreJson (some q))))) "error")) sf = optScoreJson (some q)
      rw [recGet, recFields_obj, recFields_obj,
        lookupKey_dictRemove_ne _ _ _ h, lookupKey_dictInsert_eq]
      rfl
  | none =>
      show recGet (Json.obj (dictInsert (recFields r) sf
        (optScoreJson none))) sf = optScoreJson none
      rw [recGet, recFields_obj, lookupKey_dictInsert_eq]
      rfl

/-- `updateFirst` skips a record with a different service name. -/
theorem updateFirst_cons_skip (sf : String) (name : Json) (sc : Option ℚ)
    (r : Json) (rs : List Json)
    (h : (recGet r "service_name" == name) = false) :
    updateFirst sf name sc (r :: rs) = r :: updateFirst sf name sc rs := by
  simp [updateFirst, h]

/-- `updateFirst` rewrites the first matching null-scored record. -/
theorem updateFirst_cons_hit (sf : String) (name : Json) (sc : Option ℚ)
    (r : Json) (rs : List Json)
    (h1 : (recGet r "service_name" == name) = true)
    (h2 : recScoreIsNull sf r = true) :
    updateFirst sf name sc (r :: rs) = applyRetryUpdate sf sc r :: rs := by
  simp [updateFirst, h1, h2]

/-- The second-pass fold never touches a head record whose name matches no
failed entry. -/
theorem secondPassFold_cons_skip (sf : String) (pass2 : Json → Json → Option ℚ)
    (x : Json) (rs : List Json) (fes : List Json)
    (h : ∀ fe ∈ fes, (recGet x "service_name" == recGet fe "service_name") = false) :
    fes.foldl (fun rs' fe =>
        updateFirst sf (recGet fe "service_name")
          (pass2 (recGet fe "service_name") (recGet fe "provider")) rs')
      (x :: rs) =
    x :: fes.foldl (fun rs' fe =>
        updateFirst sf (recGet fe "service_name")
          (pass2 (recGet fe "service_name") (recGet fe "provider")) rs') rs := by
  induction fes generalizing rs with
  | nil => rfl
  | cons fe fes' ih =>
      simp only [List.foldl_cons]
      rw [updateFirst_cons_skip _ _ _ _ _ (h fe (by simp))]
      exact ih _ (fun f hf => h f (by simp [hf]))

/-- Every failed entry of a mapped first pass carries the name of one of
the mapped services. -/
theorem failedServicesOf_name_mem (sf : String) (p1 : Service → WrapOutcome)
    (rest : List Service) (fe : Json)
    (h : fe ∈ failedServicesOf sf (rest.map (firstPassRecord sf p1))) :
    ∃ t ∈ rest, recGet fe "service_name" = Json.str t.service_name := by
  unfold failedServicesOf at h
  rw [List.mem_map] at h
  obtain ⟨r, hrmem, rfl⟩ := h
  rw [List.mem_filter] at hrmem
  obtain ⟨hrmem, hnull⟩ := hrmem
  rw [List.mem_map] at hrmem
  obtain ⟨t, htmem, rfl⟩ := hrmem
  exact ⟨t, htmem, by rw [recGet_failedEntry_name, recGet_firstPass_name]⟩

/-- End-to-end record for one service: the first-pass record, retried by
the second pass exactly when its score is null. -/
def finalRecord (scoreField : String) (pass1 : Service → WrapOutcome)
    (pass2 : Json → Json → Option ℚ) (svc : Service) : Json :=
  let r := firstPassRecord scoreField pass1 svc
  if recScoreIsNull scoreField r then
    applyRetryUpdate scoreField
      (pass2 (Json.str svc.service_name) (Json.str svc.provider)) r
  else r

/-- Second pass over a mapped first pass acts service-wise when service
names are distinct. -/
theorem secondPass_map_eq (sf : String) (pass1 : Service → WrapOutcome)
    (pass2 : Json → Json → Option ℚ)
    (hsf1 : sf ≠ "provider") (hsf2 : sf ≠ "service_name") :
    ∀ services : List Service, (services.map Service.service_name).Nodup →
      secondPass sf pass2 (services.map (firstPassRecord sf pass1)) =
        services.map (finalRecord sf pass1 pass2) := by
  intro services
  induction services with
  | nil => intro _; rfl
  | cons svc rest ih =>
      intro hnodup
      rw [List.map_cons, List.nodup_cons] at hnodup
      obtain ⟨hnotin, hnd'⟩ := hnodup
      unfold secondPass
      simp only [List.map_cons]
      by_cases hnull : recScoreIsNull sf (firstPassRecord sf pass1 svc) = true
      · have hfe : failedServicesOf sf (firstPassRecord sf pass1 svc ::
            rest.map (firstPassRecord sf pass1)) =
            failedServiceEntry (firstPassRecord sf pass1 svc) ::
              failedServicesOf sf (rest.map (firstPassRecord sf pass1)) := by
          unfold failedServicesOf
          simp [List.filter_cons, hnull]
        rw [hfe]
        simp only [List.foldl_cons]
        rw [recGet_failedEntry_name, recGet_failedEntry_prov,
          recGet_firstPass_name, recGet_firstPass_prov]
        rw [updateFirst_cons_hit _ _ _ _ _
          (by rw [recGet_firstPass_name]; exact str_beq_self _) hnull]
        rw [secondPassFold_cons_skip]
        · have htail := ih hnd'
          unfold secondPass at htail
          rw [htail]
          unfold finalRecord
          rw [if_pos hnull]
        · intro fe hfe'
          obtain ⟨t, htmem, hfname⟩ := failedServicesOf_name_mem sf pass1 rest fe hfe'
          rw [hfname]
          rw [recGet_applyRetry_ne _ _ _ _ (Ne.symm hsf2) (by decide)]
          rw [recGet_firstPass_name]
          exact str_beq_ne _ _
            (fun heq => hnotin (heq ▸ List.mem_map_of_mem _ htmem))
      · have hnullf : recScoreIsNull sf (firstPassRecord sf pass1 svc) = false := by
          simp only [Bool.not_eq_true] at hnull
          exact hnull
        have hfe : failedServicesOf sf (firstPassRecord sf pass1 svc ::
            rest.map (firstPassRecord sf pass1)) =
            failedServicesOf sf (rest.map (firstPassRecord sf pass1)) := by
          unfold failedServicesOf
          simp [List.filter_cons, hnullf]
        rw [hfe]
        rw [secondPassFold_cons_skip]
        · have htail := ih hnd'
          unfold secondPass at htail
          rw [htail]
          unfold finalRecord
          simp only [hnullf, Bool.false_eq_true, if_false]
        · intro fe hfe'
          obtain ⟨t, htmem, hfname⟩ := failedServicesOf_name_mem sf pass1 rest fe hfe'
          rw [hfname, recGet_firstPass_name]
          exact str_beq_ne _ _
            (fun heq => hnotin (heq ▸ List.mem_map_of_mem _ htmem))

/-- Characterization of a fresh run: with distinct service names, the
final result list is the input services mapped through their end-to-end
record. -/
theorem runFresh_results_eq (sf : String) (pass1 : Service → WrapOutcome)
    (pass2 : Json → Json → Option ℚ) (services : List Service)
    (hsf1 : sf ≠ "provider") (hsf2 : sf ≠ "service_name")
    (hnodup : (services.map Service.service_name).Nodup) :
    (runFresh sf pass1 pass2 services).results =
      services.map (finalRecord sf pass1 pass2) := by
  unfold runFresh
  exact secondPass_map_eq sf pass1 pass2 hsf1 hsf2 services hnodup

/-- Score a service ends the run with: the first-pass score, else the
second-pass retry score. -/
def finalScoreOf (pass1 : Service → WrapOutcome)
    (pass2 : Json → Json → Option ℚ) (svc : Service) : Option ℚ :=
  match wrapScore (pass1 svc) with
  | some q => some q
  | none => pass2 (Json.str svc.service_name) (Json.str svc.provider)

/-- Service name of an end-to-end record. -/
theorem recGet_finalRecord_name (sf : String) (pass1 : Service → WrapOutcome)
    (pass2 : Json → Json → Option ℚ) (svc : Service)
    (hsf2 : sf ≠ "service_name") :
    recGet (finalRecord sf pass1 pass2 svc) "service_name" =
      Json.str svc.service_name := by
  unfold finalRecord
  by_cases hnull : recScoreIsNull sf (firstPassRecord sf pass1 svc) = true
  · rw [if_pos hnull,
      recGet_applyRetry_ne _ _ _ _ (Ne.symm hsf2) (by decide),
      recGet_firstPass_name]
  · rw [if_neg hnull, recGet_firstPass_name]

/-- Provider of an end-to-end record. -/
theorem recGet_finalRecord_prov (sf : String) (pass1 : Service → WrapOutcome)
    (pass2 : Json → Json → Option ℚ) (svc : Service)
    (hsf1 : sf ≠ "provider") :
    recGet (finalRecord sf pass1 pass2 svc) "provider" =
      Json.str svc.provider := by
  unfold finalRecord
  by_cases hnull : recScoreIsNull sf (firstPassRecord sf pass1 svc) = true
  · rw [if_pos hnull,
      recGet_applyRetry_ne _ _ _ _ (Ne.symm hsf1) (by decide),
      recGet_firstPass_prov]
  · rw [if_neg hnull, recGet_firstPass_prov]

/-- Score stored in an end-to-end record. -/
theorem recGet_finalRecord_score (sf : String) (pass1 : Service → WrapOutcome)
    (pass2 : Json → Json → Option ℚ) (svc : Service)
    (hsf1 : sf ≠ "provider") (hsf2 : sf ≠ "service_name") (hsf3 : sf ≠ "error") :
    recGet (finalRecord sf pass1 pass2 svc) sf =
      optScoreJson (finalScoreOf pass1 pass2 svc) := by
  unfold finalRecord finalScoreOf
  by_cases hnull : recScoreIsNull sf (firstPassRecord sf pass1 svc) = true
  · rw [if_pos hnull, recGet_applyRetry_score _ _ _ hsf3]
    have hw := (recScoreIsNull_firstPass sf pass1 svc hsf1 hsf2).mp hnull
    rw [hw]
  · rw [if_neg hnull, recGet_firstPass_score _ _ _ hsf1 hsf2]
    cases hws : wrapScore (pass1 svc) with
    | none =>
        exact absurd ((recScoreIsNull_firstPass sf pass1 svc hsf1 hsf2).mpr hws)
          hnull
    | some q => rfl

/-- A wrapper record never carries an error field. -/
theorem wrapperRecord_error_none (sf : String) (svc : Service) (s : Option ℚ)
    (h : sf ≠ "error") :
    lookupKey (recFields (wrapperRecord sf svc s)) "error" = none := by
  unfold wrapperRecord
  rw [recFields_obj]
  simp only [List.cons_append, List.nil_append]
  rw [lookupKey_cons_ne _ _ _ _ (by decide),
    lookupKey_cons_ne _ _ _ _ (by decide), lookupKey_cons_ne _ _ _ _ h]
  cases hta : truthyAlias svc.service_alias with
  | none => simp only [hta]; rfl
  | some a =>
      simp only [hta]
      rw [lookupKey_cons_ne _ _ _ _ (by decide)]
      rfl

/-- Failed-services file artifacts of a fresh run, by construction. -/
theorem runFresh_failedRecords (sf : String) (pass1 : Service → WrapOutcome)
    (pass2 : Json → Json → Option ℚ) (services : List Service) :
    (runFresh sf pass1 pass2 services).failedRecords =
      ((runFresh sf pass1 pass2 services).results.filter
        (fun r => recScoreIsNull sf r)).map saveFailedEntry := rfl

/-- Scores file artifacts of a fresh run, by construction. -/
theorem runFresh_scoresRecords (sf : String) (pass1 : Service → WrapOutcome)
    (pass2 : Json → Json → Option ℚ) (services : List Service) :
    (runFresh sf pass1 pass2 services).scoresRecords =
      (runFresh sf pass1 pass2 services).results.filter
        (fun r => !(recScoreIsNull sf r)) := rfl

/-- Record emitted by a run in which one service's concurrent pass
exhausted its retries (returning `None`) and whose sequential retry also
failed. -/
def c2Record : Json :=
  Json.obj [("provider", Json.str "AWS"),
    ("service_name", Json.str "AmazonEC2"), ("model_score", Json.null)]

/-- Counterexample to C2: at the end of this run the record held for the
failed service has a null score but no error field at all — the
exhausted-retries path stores only the identity fields and the null
score. -/
theorem c2_counterexample :
    (runFresh "model_score" (fun _ => WrapOutcome.ok none) (fun _ _ => none)
      [⟨"AWS", "AmazonEC2", none⟩]).results = [c2Record] ∧
    recScoreIsNull "model_score" c2Record = true ∧
    lookupKey (recFields c2Record) "error" = none :=
  ⟨rfl, rfl, rfl⟩

/-- C2 amended: a null score at the end of a run implies both the
concurrent pass and the sequential retry pass produced no score for that
service; when the concurrent pass ended by exhausting its retries (the
wrapper returned `None` rather than raising), the final record carries no
error field at all. -/
theorem c2_amended (sf : String) (pass1 : Service → WrapOutcome)
    (pass2 : Json → Json → Option ℚ) (services : List Service)
    (hsf1 : sf ≠ "provider") (hsf2 : sf ≠ "service_name") (hsf3 : sf ≠ "error")
    (hnodup : (services.map Service.service_name).Nodup) :
    (∀ r ∈ (runFresh sf pass1 pass2 services).results,
      recScoreIsNull sf r = true →
      ∃ svc ∈ services, recGet r "service_name" = Json.str svc.service_name ∧
        wrapScore (pass1 svc) = none ∧
        pass2 (Json.str svc.service_name) (Json.str svc.provider) = none) ∧
    (∀ svc ∈ services, pass1 svc = WrapOutcome.ok none →
      pass2 (Json.str svc.service_name) (Json.str svc.provider) = none →
      ∃ r ∈ (runFresh sf pass1 pass2 services).results,
        recGet r "service_name" = Json.str svc.service_name ∧
        recScoreIsNull sf r = true ∧
        lookupKey (recFields r) "error" = none) := by
  constructor
  · intro r hr hnull
    rw [runFresh_results_eq sf pass1 pass2 services hsf1 hsf2 hnodup] at hr
    rw [List.mem_map] at hr
    obtain ⟨svc, hmem, rfl⟩ := hr
    refine ⟨svc, hmem, recGet_finalRecord_name sf pass1 pass2 svc hsf2, ?_⟩
    unfold recScoreIsNull at hnull
    rw [recGet_finalRecord_score sf pass1 pass2 svc hsf1 hsf2 hsf3] at hnull
    have hfs : finalScoreOf pass1 pass2 svc = none :=
      (optScoreJson_beq_null _).mp hnull
    unfold finalScoreOf at hfs
    refine ⟨?_, ?_⟩
    · cases hws : wrapScore (pass1 svc) with
      | some q => rw [hws] at hfs; simp at hfs
      | none => rfl
    · cases hws : wrapScore (pass1 svc) with
      | some q => rw [hws] at hfs; simp at hfs
      | none => rw [hws] at hfs; exact hfs
  · intro svc hmem h1 h2
    refine ⟨finalRecord sf pass1 pass2 svc, ?_, ?_, ?_, ?_⟩
    · rw [runFresh_results_eq sf pass1 pass2 services hsf1 hsf2 hnodup]
      exact List.mem_map_of_mem _ hmem
    · exact recGet_finalRecord_name sf pass1 pass2 svc hsf2
    · unfold recScoreIsNull
      rw [recGet_finalRecord_score sf pass1 pass2 svc hsf1 hsf2 hsf3]
      have : finalScoreOf pass1 pass2 svc = none := by
        unfold finalScoreOf
        rw [h1]
        exact h2
      rw [this]
      rfl
    · have hnull : recScoreIsNull sf (firstPassRecord sf pass1 svc) = true :=
        (recScoreIsNull_firstPass sf pass1 svc hsf1 hsf2).mpr (by rw [h1]; rfl)
      unfold finalRecord
      rw [if_pos hnull, h2]
      show lookupKey (recFields (Json.obj (dictInsert
        (recFields (firstPassRecord sf pass1 svc)) sf
        (optScoreJson none)))) "error" = none
      rw [recFields_obj, lookupKey_dictInsert_ne _ _ _ _ (Ne.symm hsf3)]
      simp only [firstPassRecord, h1]
      exact wrapperRecord_error_none sf svc none hsf3

/-- Witness for the amended C2 at a one-service run whose both passes
fail. -/
theorem c2_amended_witness :
    (("model_score" ≠ "provider") ∧ ("model_score" ≠ "service_name") ∧
      ("model_score" ≠ "error") ∧
      (([⟨"AWS", "AmazonEC2", none⟩] : List Service).map
        Service.service_name).Nodup) ∧
    ((∀ r ∈ (runFresh "model_score" (fun _ => WrapOutcome.ok none)
        (fun _ _ => none) [⟨"AWS", "AmazonEC2", none⟩]).results,
      recScoreIsNull "model_score" r = true →
      ∃ svc ∈ ([⟨"AWS", "AmazonEC2", none⟩] : List Service),
        recGet r "service_name" = Json.str svc.service_name ∧
        wrapScore ((fun _ => WrapOutcome.ok none) svc) = none ∧
        (fun _ _ => (none : Option ℚ)) (Json.str svc.service_name)
          (Json.str svc.provider) = none) ∧
    (∀ svc ∈ ([⟨"AWS", "AmazonEC2", none⟩] : List Service),
      (fun _ => WrapOutcome.ok none) svc = WrapOutcome.ok none →
      (fun _ _ => (none : Option ℚ)) (Json.str svc.service_name)
        (Json.str svc.provider) = none →
      ∃ r ∈ (runFresh "model_score" (fun _ => WrapOutcome.ok none)
          (fun _ _ => none) [⟨"AWS", "AmazonEC2", none⟩]).results,
        recGet r "service_name" = Json.str svc.service_name ∧
        recScoreIsNull "model_score" r = true ∧
        lookupKey (recFields r) "error" = none)) :=
  ⟨⟨by decide, by decide, by decide, by simp⟩,
   c2_amended "model_score" (fun _ => WrapOutcome.ok none) (fun _ _ => none)
     [⟨"AWS", "AmazonEC2", none⟩] (by decide) (by decide) (by decide) (by simp)⟩

/-- Service name of a failed-file entry. -/
theorem recGet_saveFailed_name (r : Json) :
    recGet (saveFailedEntry r) "service_name" = recGet r "service_name" := by
  unfold saveFailedEntry
  conv_lhs => rw [recGet]
  rw [recFields_obj]
  simp only [List.cons_append, List.nil_append]
  rw [lookupKey_cons_ne _ _ _ _ (by decide), lookupKey_cons_eq]
  rfl

/-- Provider of a failed-file entry. -/
theorem recGet_saveFailed_prov (r : Json) :
    recGet (saveFailedEntry r) "provider" = recGet r "provider" := by
  unfold saveFailedEntry
  conv_lhs => rw [recGet]
  rw [recFields_obj]
  simp only [List.cons_append, List.nil_append]
  rw [lookupKey_cons_eq]
  rfl

/-- A failed-file entry holds nothing but the identity fields. -/
theorem saveFailed_key_none (r : Json) (k : String)
    (h1 : k ≠ "provider") (h2 : k ≠ "service_name")
    (h3 : k ≠ "service_alias") :
    lookupKey (recFields (saveFailedEntry r)) k = none := by
  unfold saveFailedEntry
  rw [recFields_obj]
  simp only [List.cons_append, List.nil_append]
  rw [lookupKey_cons_ne _ _ _ _ (Ne.symm h1),
    lookupKey_cons_ne _ _ _ _ (Ne.symm h2)]
  by_cases hta : jsonTruthy (recGet r "service_alias") = true
  · simp only [hta, if_true]
    rw [lookupKey_cons_ne _ _ _ _ (Ne.symm h3)]
    rfl
  · rw [Bool.not_eq_true] at hta
    simp only [hta, Bool.false_eq_true, if_false]
    rfl

/-- C8: every service whose every attempt fails in both passes appears in
the failed-services file as an identity-only record (provider, name,
optional alias — no error text, no score field), and does not appear in
the scores output. -/
theorem c8_retry_exhaustion (sf : String) (pass1 : Service → WrapOutcome)
    (pass2 : Json → Json → Option ℚ) (services : List Service) (svc : Service)
    (hsf1 : sf ≠ "provider") (hsf2 : sf ≠ "service_name") (hsf3 : sf ≠ "error")
    (hsf4 : sf ≠ "service_alias")
    (hnodup : (services.map Service.service_name).Nodup)
    (hmem : svc ∈ services)
    (h1 : wrapScore (pass1 svc) = none)
    (h2 : pass2 (Json.str svc.service_name) (Json.str svc.provider) = none) :
    (∃ fe ∈ (runFresh sf pass1 pass2 services).failedRecords,
      recGet fe "service_name" = Json.str svc.service_name ∧
      recGet fe "provider" = Json.str svc.provider ∧
      lookupKey (recFields fe) "error" = none ∧
      lookupKey (recFields fe) sf = none) ∧
    (∀ r ∈ (runFresh sf pass1 pass2 services).scoresRecords,
      recGet r "service_name" ≠ Json.str svc.service_name) := by
  have hfs : finalScoreOf pass1 pass2 svc = none := by
    unfold finalScoreOf
    rw [h1]
    exact h2
  have hnull : recScoreIsNull sf (finalRecord sf pass1 pass2 svc) = true := by
    unfold recScoreIsNull
    rw [recGet_finalRecord_score sf pass1 pass2 svc hsf1 hsf2 hsf3, hfs]
    rfl
  constructor
  · refine ⟨saveFailedEntry (finalRecord sf pass1 pass2 svc), ?_, ?_, ?_, ?_, ?_⟩
    · rw [runFresh_failedRecords]
      apply List.mem_map_of_mem
      rw [List.mem_filter]
      constructor
      · rw [runFresh_results_eq sf pass1 pass2 services hsf1 hsf2 hnodup]
        exact List.mem_map_of_mem _ hmem
      · exact hnull
    · rw [recGet_saveFailed_name, recGet_finalRecord_name sf pass1 pass2 svc hsf2]
    · rw [recGet_saveFailed_prov, recGet_finalRecord_prov sf pass1 pass2 svc hsf1]
    · exact saveFailed_key_none _ _ (by decide) (by decide) (by decide)
    · exact saveFailed_key_none _ _ hsf1 hsf2 hsf4
  · intro r hr hname
    rw [runFresh_scoresRecords, List.mem_filter] at hr
    obtain ⟨hrmem, hnn⟩ := hr
    rw [runFresh_results_eq sf pass1 pass2 services hsf1 hsf2 hnodup,
      List.mem_map] at hrmem
    obtain ⟨t, htmem, rfl⟩ := hrmem
    rw [recGet_finalRecord_name sf pass1 pass2 t hsf2] at hname
    have hnames : t.service_name = svc.service_name := by
      injection hname
    have hteq : t = svc :=
      List.inj_on_of_nodup_map hnodup htmem hmem hnames
    subst hteq
    rw [hnull] at hnn
    simp at hnn

/-- Witness for C8 at a one-service run (alias present) whose both passes
fail. -/
theorem c8_retry_exhaustion_witness :
    (("llama_score" ≠ "provider") ∧ ("llama_score" ≠ "service_name") ∧
      ("llama_score" ≠ "error") ∧ ("llama_score" ≠ "service_alias") ∧
      (([⟨"GCP", "CloudRun", some "Cloud Run"⟩] : List Service).map
        Service.service_name).Nodup ∧
      (⟨"GCP", "CloudRun", some "Cloud Run"⟩ : Service) ∈
        ([⟨"GCP", "CloudRun", some "Cloud Run"⟩] : List Service) ∧
      wrapScore ((fun _ => WrapOutcome.ok none)
        (⟨"GCP", "CloudRun", some "Cloud Run"⟩ : Service)) = none ∧
      (fun _ _ => (none : Option ℚ)) (Json.str "CloudRun") (Json.str "GCP") =
        none) ∧
    ((∃ fe ∈ (runFresh "llama_score" (fun _ => WrapOutcome.ok none)
        (fun _ _ => none) [⟨"GCP", "CloudRun", some "Cloud Run"⟩]).failedRecords,
      recGet fe "service_name" = Json.str "CloudRun" ∧
      recGet fe "provider" = Json.str "GCP" ∧
      lookupKey (recFields fe) "error" = none ∧
      lookupKey (recFields fe) "llama_score" = none) ∧
    (∀ r ∈ (runFresh "llama_score" (fun _ => WrapOutcome.ok none)
        (fun _ _ => none) [⟨"GCP", "CloudRun", some "Cloud Run"⟩]).scoresRecords,
      recGet r "service_name" ≠ Json.str "CloudRun")) :=
  ⟨⟨by decide, by decide, by decide, by decide, by simp, by simp, rfl, rfl⟩,
   c8_retry_exhaustion "llama_score" (fun _ => WrapOutcome.ok none)
     (fun _ _ => none) [⟨"GCP", "CloudRun", some "Cloud Run"⟩]
     ⟨"GCP", "CloudRun", some "Cloud Run"⟩ (by decide) (by decide) (by decide)
     (by decide) (by simp) (by simp) rfl rfl⟩

/-- A numeric stored score value comes from that score. -/
theorem optScoreJson_eq_num (s : Option ℚ) (q : ℚ)
    (h : optScoreJson s = Json.num q) : s = some q := by
  cases s with
  | none => simp [optScoreJson] at h
  | some q' =>
      unfold optScoreJson at h
      injection h with h'
      rw [h']

/-- Service used in the concrete C1 runs. -/
def c1Svc : Service := ⟨"AWS", "AmazonEC2", none⟩

/-- Response text whose 7 criteria all carry the out-of-range score 20. -/
def c1Text : String :=
  "```json\n\x7b\"properties\": \x7b\"scores\": \x7b\"a\": \x7b\"score\": 20\x7d, \"b\": \x7b\"score\": 20\x7d, \"c\": \x7b\"score\": 20\x7d, \"d\": \x7b\"score\": 20\x7d, \"e\": \x7b\"score\": 20\x7d, \"f\": \x7b\"score\": 20\x7d, \"g\": \x7b\"score\": 20\x7d\x7d\x7d\x7d\n```"

/-- Run against a model that always answers with seven 20s. -/
def c1Run : RunOut :=
  runFreshFromResponders "model_score" none
    (fun _ _ _ => Except.ok (mkTextResponse c1Text))
    (fun _ _ _ _ => Except.ok (mkTextResponse c1Text))
    [] true true 3 3 [c1Svc]

set_option maxRecDepth 40000 in
/-- Counterexample to C1: the orchestrator emits this record with score
20.00 to the scores file — no clamping to [1.00, 10.00] happens anywhere,
so the range does not hold "regardless of what numeric values the model
response contained". -/
theorem c1_counterexample :
    c1Run.scoresRecords = [Json.obj [("provider", Json.str "AWS"),
      ("service_name", Json.str "AmazonEC2"), ("model_score", Json.num 20)]] ∧
    ¬ ((20 : ℚ) ≤ 10) :=
  ⟨by with_unfolding_all rfl, by norm_num⟩

/-- C1 amended: every non-null score a run emits is the 2-decimal rounding
of the mean of the exactly 7 extracted criterion scores of some parsed
response — hence an integer number of hundredths — and it lies within
[1.00, 10.00] whenever each extracted criterion score lies within
[1.00, 10.00]; no clamping is applied beyond that. -/
theorem c1_amended (sf : String) (ddgs : DdgsOracle)
    (responders : Service → ℕ → ℕ → Except String Json)
    (retryResponders : Json → Json → ℕ → ℕ → Except String Json)
    (base : List Json) (useTools supportsTools : Bool)
    (maxToolIterations maxRetries : ℕ) (services : List Service)
    (r : Json) (q : ℚ)
    (hsf1 : sf ≠ "provider") (hsf2 : sf ≠ "service_name") (hsf3 : sf ≠ "error")
    (hnodup : (services.map Service.service_name).Nodup)
    (hr : r ∈ (runFreshFromResponders sf ddgs responders retryResponders base
      useTools supportsTools maxToolIterations maxRetries services).scoresRecords)
    (hq : recGet r sf = Json.num q) :
    (∃ n : ℤ, (n : ℚ) = q * 100) ∧
    ∃ resp scores, parse_score_response resp = Except.ok (some q) ∧
      responseScores resp = some scores ∧ scores.length = 7 ∧
      q = pyRound2 ((scores.map Prod.snd).sum / 7) ∧
      ((∀ p ∈ scores, 1 ≤ p.2 ∧ p.2 ≤ 10) → 1 ≤ q ∧ q ≤ 10) := by
  unfold runFreshFromResponders at hr
  rw [runFresh_scoresRecords, List.mem_filter] at hr
  obtain ⟨hrmem, hnn⟩ := hr
  rw [runFresh_results_eq _ _ _ _ hsf1 hsf2 hnodup, List.mem_map] at hrmem
  obtain ⟨svc, hmem, rfl⟩ := hrmem
  rw [recGet_finalRecord_score _ _ _ _ hsf1 hsf2 hsf3] at hq
  have hfs := optScoreJson_eq_num _ _ hq
  have hparse : ∃ resp, parse_score_response resp = Except.ok (some q) := by
    unfold finalScoreOf at hfs
    simp only [wrapScore] at hfs
    cases hm : score_service_with_tools ddgs (responders svc) base
        svc.service_name svc.provider useTools supportsTools
        maxToolIterations maxRetries with
    | some q0 =>
        rw [hm] at hfs
        have hq0 : q0 = q := by simpa using hfs
        subst hq0
        exact score_service_some_parse _ _ _ _ _ _ _ _ _ _ hm
    | none =>
        rw [hm] at hfs
        exact score_service_some_parse _ _ _ _ _ _ _ _ _ _ hfs
  obtain ⟨resp, hps⟩ := hparse
  obtain ⟨scores, hrs, h7, heq⟩ := parse_ok_structure resp q hps
  have h7q : ((scores.length : ℚ)) = 7 := by rw [h7]; norm_num
  rw [h7q] at heq
  refine ⟨?_, resp, scores, hps, hrs, h7, heq, ?_⟩
  · obtain ⟨n, hn⟩ := pyRound2_mul100_int ((scores.map Prod.snd).sum / 7)
    exact ⟨n, by rw [heq]; exact hn⟩
  · intro hbound
    have hmap : ∀ x ∈ scores.map Prod.snd, 1 ≤ x ∧ x ≤ 10 := by
      intro x hx
      rw [List.mem_map] at hx
      obtain ⟨p, hp, rfl⟩ := hx
      exact hbound p hp
    have hsum := sumBounds (scores.map Prod.snd) 1 10 hmap
    have hlen : (((scores.map Prod.snd).length : ℕ) : ℚ) = 7 := by
      rw [List.length_map, h7]; norm_num
    rw [hlen] at hsum
    have h7pos : (0 : ℚ) < 7 := by norm_num
    have hm1 : 1 ≤ (scores.map Prod.snd).sum / 7 := by
      rw [le_div_iff h7pos]; linarith [hsum.1]
    have hm2 : (scores.map Prod.snd).sum / 7 ≤ 10 := by
      rw [div_le_iff h7pos]; linarith [hsum.2]
    have hb := pyRound2_bounds _ hm1 hm2
    rw [heq]
    exact hb

/-- Response text whose 7 criteria all carry score 2. -/
def c1GoodText : String :=
  "```json\n\x7b\"scores\": \x7b\"a\": \x7b\"score\": 2\x7d, \"b\": \x7b\"score\": 2\x7d, \"c\": \x7b\"score\": 2\x7d, \"d\": \x7b\"score\": 2\x7d, \"e\": \x7b\"score\": 2\x7d, \"f\": \x7b\"score\": 2\x7d, \"g\": \x7b\"score\": 2\x7d\x7d\x7d\n```"

/-- Run against a model that always answers with seven 2s. -/
def c1GoodRun : RunOut :=
  runFreshFromResponders "model_score" none
    (fun _ _ _ => Except.ok (mkTextResponse c1GoodText))
    (fun _ _ _ _ => Except.ok (mkTextResponse c1GoodText))
    [] true true 3 3 [c1Svc]

/-- Record that run emits. -/
def c1GoodRec : Json :=
  Json.obj [("provider", Json.str "AWS"),
    ("service_name", Json.str "AmazonEC2"), ("model_score", Json.num 2)]

set_option maxRecDepth 40000 in
/-- Witness for the amended C1 at the in-range run scoring 2.00. -/
theorem c1_amended_witness :
    (("model_score" ≠ "provider") ∧ ("model_score" ≠ "service_name") ∧
      ("model_score" ≠ "error") ∧
      (([c1Svc] : List Service).map Service.service_name).Nodup ∧
      c1GoodRec ∈ c1GoodRun.scoresRecords ∧
      recGet c1GoodRec "model_score" = Json.num 2) ∧
    ((∃ n : ℤ, (n : ℚ) = 2 * 100) ∧
    ∃ resp scores, parse_score_response resp = Except.ok (some 2) ∧
      responseScores resp = some scores ∧ scores.length = 7 ∧
      (2 : ℚ) = pyRound2 ((scores.map Prod.snd).sum / 7) ∧
      ((∀ p ∈ scores, 1 ≤ p.2 ∧ p.2 ≤ 10) → (1 : ℚ) ≤ 2 ∧ (2 : ℚ) ≤ 10)) :=
  ⟨⟨by decide, by decide, by decide, by simp,
    by with_unfolding_all exact List.mem_singleton_self c1GoodRec, rfl⟩,
   c1_amended "model_score" none
     (fun _ _ _ => Except.ok (mkTextResponse c1GoodText))
     (fun _ _ _ _ => Except.ok (mkTextResponse c1GoodText))
     [] true true 3 3 [c1Svc] c1GoodRec 2 (by decide) (by decide) (by decide)
     (by simp)
     (by with_unfolding_all exact List.mem_singleton_self c1GoodRec) rfl⟩

/-- C5: in append mode, when every input service is already present in
the destination file with a non-null score, the reconciler stops before
invoking the orchestrator and the output file is byte-for-byte unchanged
(no rewrite, no duplicates); more generally, a service whose name is
present in the loaded dedup map is never re-queried. -/
theorem c5_idempotent_append (sf : String) (pass1 : Service → WrapOutcome)
    (pass2 : Json → Json → Option ℚ) (lines : List (List Char))
    (services : List Service) (m : List (Json × Json))
    (hload : load_existing_scores sf lines = Except.ok m) :
    ((∀ s ∈ services, (jlookup m (Json.str s.service_name)).isSome = true) →
      runAppend sf pass1 pass2 lines services =
        Except.ok { fileLines := lines, queried := [], results := [],
                    failedRecords := [], failedLines := [] }) ∧
    (∀ out, runAppend sf pass1 pass2 lines services = Except.ok out →
      ∀ s ∈ out.queried, jlookup m (Json.str s.service_name) = none) := by
  have hfilter : ∀ s ∈ services.filter
      (fun s => (jlookup m (Json.str s.service_name)).isNone),
      jlookup m (Json.str s.service_name) = none := by
    intro s hs
    rw [List.mem_filter] at hs
    exact Option.isNone_iff_eq_none.mp hs.2
  constructor
  · intro hall
    have hempty : services.filter
        (fun s => (jlookup m (Json.str s.service_name)).isNone) = [] := by
      rw [List.filter_eq_nil]
      intro s hs
      have hsome := hall s hs
      rw [Bool.not_eq_true, Option.isNone_eq_false_iff]
      exact hsome
    unfold runAppend
    rw [hload]
    simp only [hempty, List.isEmpty_nil, if_true]
  · intro out hout s hs
    unfold runAppend at hout
    rw [hload] at hout
    simp only at hout
    by_cases hemp : (services.filter
      (fun s => (jlookup m (Json.str s.service_name)).isNone)).isEmpty = true
    · rw [if_pos hemp] at hout
      have : out.queried = [] := by
        cases hout
        rfl
      rw [this] at hs
      simp at hs
    · rw [if_neg hemp] at hout
      have hq : out.queried = services.filter
          (fun s => (jlookup m (Json.str s.service_name)).isNone) := by
        cases hout
        rfl
      rw [hq] at hs
      exact hfilter s hs

/-- Existing scores file line used in the C5 witness. -/
def c5Line : List Char :=
  "\x7b\"provider\": \"AWS\", \"service_name\": \"AmazonEC2\", \"model_score\": 5\x7d".data

/-- Existing scores file used in the C5 witness. -/
def c5Lines : List (List Char) := [c5Line]

/-- Dedup map that file loads to. -/
def c5M : List (Json × Json) :=
  [(Json.str "AmazonEC2", Json.obj [("provider", Json.str "AWS"),
    ("service_name", Json.str "AmazonEC2"), ("model_score", Json.num 5)])]

/-- Service already present in that file. -/
def c5Svc : Service := ⟨"AWS", "AmazonEC2", none⟩

set_option maxRecDepth 40000 in
/-- Witness for C5 at a one-line file already holding the input service. -/
theorem c5_idempotent_append_witness :
    (load_existing_scores "model_score" c5Lines = Except.ok c5M ∧
     ∀ s ∈ [c5Svc], (jlookup c5M (Json.str s.service_name)).isSome = true) ∧
    runAppend "model_score" (fun _ => WrapOutcome.ok none) (fun _ _ => none)
        c5Lines [c5Svc] =
      Except.ok { fileLines := c5Lines, queried := [], results := [],
                  failedRecords := [], failedLines := [] } := by
  have hload : load_existing_scores "model_score" c5Lines = Except.ok c5M := by
    with_unfolding_all rfl
  have hall : ∀ s ∈ [c5Svc], (jlookup c5M (Json.str s.service_name)).isSome = true := by
    intro s hs
    rw [List.mem_singleton] at hs
    subst hs
    rfl
  exact ⟨⟨hload, hall⟩,
    (c5_idempotent_append "model_score" (fun _ => WrapOutcome.ok none)
      (fun _ _ => none) c5Lines [c5Svc] c5M hload).1 hall⟩

/-- Shape required of a tool-use content block for the per-block lookups
(outside the handler's `try`) to succeed: a dict whose `toolUse` value, if
present, is itself a dict — the Converse API contract. -/
def toolBlockShaped (b : Json) : Bool :=
  match b with
  | .obj fs =>
      match lookupKey fs "toolUse" with
      | none => true
      | some (.obj _) => true
      | some _ => false
  | _ => false

/-- Tool-use payload of a block (`block.get('toolUse', {})`). -/
def toolUseOf (b : Json) : Json :=
  (lookupKey (recFields b) "toolUse").getD (Json.obj [])

/-- Requested tool name of a block. -/
def toolNameOf (b : Json) : Json := recGet (toolUseOf b) "name"

/-- Correlation id of a block. -/
def toolUseIdOf (b : Json) : Json := recGet (toolUseOf b) "toolUseId"

/-- Structured input of a block (`tool_use.get('input', {})`). -/
def toolInputOf (b : Json) : Json :=
  (lookupKey (recFields (toolUseOf b)) "input").getD (Json.obj [])

/-- Result produced for one block by the batch tool processor. -/
def handledOf (ddgs : DdgsOracle) (b : Json) : Json :=
  match handleToolUseBlock ddgs b with
  | .ok r => r
  | .error _ => Json.null

/-- Check that a value is a tool-result content block. -/
def isToolResultShaped (r : Json) : Bool :=
  match r with
  | .obj [("toolResult", .obj _)] => true
  | _ => false

/-- Status carried by a tool-result block. -/
def toolResultStatusOf (r : Json) : Json :=
  recGet ((lookupKey (recFields r) "toolResult").getD (Json.obj [])) "status"

/-- Text carried by a tool-result block. -/
def toolResultTextOf (r : Json) : Json :=
  match recGet ((lookupKey (recFields r) "toolResult").getD (Json.obj []))
      "content" with
  | .arr [c] => recGet c "text"
  | _ => Json.null

/-- Field access on an object record. -/
theorem recGet_obj (fs : List (String × Json)) (k : String) :
    recGet (Json.obj fs) k = (lookupKey fs k).getD Json.null := rfl

/-- String-atom comparison decides equality. -/
theorem jsonBEq_str_iff (j : Json) (s : String) :
    (j == Json.str s) = true ↔ j = Json.str s := by
  cases j with
  | str a =>
      rw [show (Json.str a == Json.str s) = (a == s) from rfl, beq_iff_eq]
      constructor
      · intro h; rw [h]
      · intro h; injection h
  | null => simp [show (Json.null == Json.str s) = false from rfl]
  | bool x => simp [show (Json.bool x == Json.str s) = false from rfl]
  | num x => simp [show (Json.num x == Json.str s) = false from rfl]
  | arr x => simp [show (Json.arr x == Json.str s) = false from rfl]
  | obj x => simp [show (Json.obj x == Json.str s) = false from rfl]

/-- On a well-shaped block the handler always returns a formatted tool
result, error or success depending only on the tool execution. -/
theorem handle_eq (ddgs : DdgsOracle) (b : Json)
    (h : toolBlockShaped b = true) :
    handleToolUseBlock ddgs b =
      Except.ok (match execute_tool ddgs (toolNameOf b) (toolInputOf b) with
        | .ok t => format_tool_result (toolUseIdOf b) t false
        | .error e => format_tool_result (toolUseIdOf b)
            ("Error executing " ++ pyStr (toolNameOf b) ++ ": " ++ pyErrStr e)
            true) := by
  cases b with
  | obj fs =>
      cases hlu : lookupKey fs "toolUse" with
      | none =>
          unfold handleToolUseBlock toolNameOf toolUseIdOf toolInputOf toolUseOf
          simp only [pyGetDef, recGet, recFields_obj, hlu, Option.getD_none]
          split <;> rfl
      | some tu =>
          cases tu with
          | obj g =>
              unfold handleToolUseBlock toolNameOf toolUseIdOf toolInputOf toolUseOf
              simp only [pyGetDef, recGet, recFields_obj, hlu, Option.getD_some]
              split <;> rfl
          | null => simp [toolBlockShaped, hlu] at h
          | bool x => simp [toolBlockShaped, hlu] at h
          | num x => simp [toolBlockShaped, hlu] at h
          | str x => simp [toolBlockShaped, hlu] at h
          | arr x => simp [toolBlockShaped, hlu] at h
  | null => simp [toolBlockShaped] at h
  | bool x => simp [toolBlockShaped] at h
  | num x => simp [toolBlockShaped] at h
  | str x => simp [toolBlockShaped] at h
  | arr x => simp [toolBlockShaped] at h

/-- The handler never raises on a well-shaped block. -/
theorem handle_ok (ddgs : DdgsOracle) (b : Json)
    (h : toolBlockShaped b = true) :
    handleToolUseBlock ddgs b = Except.ok (handledOf ddgs b) := by
  unfold handledOf
  rw [handle_eq ddgs b h]

/-- The batch processor returns exactly one result per well-shaped
block. -/
theorem process_tool_use_ok (ddgs : DdgsOracle) :
    ∀ blocks : List Json, (∀ b ∈ blocks, toolBlockShaped b = true) →
      process_tool_use_requests ddgs blocks =
        Except.ok (blocks.map (handledOf ddgs)) := by
  intro blocks
  induction blocks with
  | nil => intro _; rfl
  | cons b bs ih =>
      intro h
      unfold process_tool_use_requests
      rw [handle_ok ddgs b (h b (by simp))]
      rw [ih (fun x hx => h x (by simp [hx]))]
      rfl

/-- Status of a formatted tool result. -/
theorem toolResultStatus_fmt (toolUseId : Json) (txt : String) (isErr : Bool) :
    toolResultStatusOf (format_tool_result toolUseId txt isErr) =
      Json.str (if isErr then "error" else "success") := rfl

/-- Text of a formatted tool result. -/
theorem toolResultText_fmt (toolUseId : Json) (txt : String) (isErr : Bool) :
    toolResultTextOf (format_tool_result toolUseId txt isErr) = Json.str txt := rfl

/-- A formatted tool result is tool-result shaped. -/
theorem isToolResultShaped_fmt (toolUseId : Json) (txt : String) (isErr : Bool) :
    isToolResultShaped (format_tool_result toolUseId txt isErr) = true := rfl

/-- The per-block result in terms of the tool execution. -/
theorem handledOf_eq (ddgs : DdgsOracle) (b : Json)
    (h : toolBlockShaped b = true) :
    handledOf ddgs b =
      (match execute_tool ddgs (toolNameOf b) (toolInputOf b) with
        | .ok t => format_tool_result (toolUseIdOf b) t false
        | .error e => format_tool_result (toolUseIdOf b)
            ("Error executing " ++ pyStr (toolNameOf b) ++ ": " ++ pyErrStr e)
            true) := by
  unfold handledOf
  rw [handle_eq ddgs b h]

/-- An unrecognized tool name raises `ValueError` inside the handler's
`try`. -/
theorem execute_unknown (ddgs : DdgsOracle) (nm inp : Json)
    (h1 : nm ≠ Json.str "get_aws_service_docs")
    (h2 : nm ≠ Json.str "search_cloud_provider_docs") :
    execute_tool ddgs nm inp =
      Except.error (PyErr.valueError ("Unknown tool: " ++ pyStr nm)) := by
  unfold execute_tool
  have hf1 : (nm == Json.str "get_aws_service_docs") = false := by
    cases hb : (nm == Json.str "get_aws_service_docs")
    · rfl
    · exact absurd ((jsonBEq_str_iff _ _).mp hb) h1
  have hf2 : (nm == Json.str "search_cloud_provider_docs") = false := by
    cases hb : (nm == Json.str "search_cloud_provider_docs")
    · rfl
    · exact absurd ((jsonBEq_str_iff _ _).mp hb) h2
  simp only [hf1, hf2, Bool.false_eq_true, if_false]

/-- A missing or falsy `service_name` makes the AWS docs tool return its
embedded error string, not raise. -/
theorem execute_aws_missing (ddgs : DdgsOracle) (inp : Json)
    (ifs : List (String × Json)) (hinp : inp = Json.obj ifs)
    (hmiss : jsonTruthy ((lookupKey ifs "service_name").getD Json.null) = false) :
    execute_tool ddgs (Json.str "get_aws_service_docs") inp =
      Except.ok "Error: service_name is required" := by
  subst hinp
  unfold execute_tool
  rw [if_pos (str_beq_self "get_aws_service_docs")]
  unfold execute_aws_docs_tool
  simp only [pyGetDef, hmiss, Bool.not_false, if_true]

/-- Missing required fields make the cross-provider search tool return its
embedded error string, not raise. -/
theorem execute_cloud_missing (ddgs : DdgsOracle) (inp : Json)
    (ifs : List (String × Json)) (hinp : inp = Json.obj ifs)
    (hmiss : jsonTruthy ((lookupKey ifs "service_name").getD Json.null) = false ∨
      jsonTruthy ((lookupKey ifs "provider").getD Json.null) = false) :
    execute_tool ddgs (Json.str "search_cloud_provider_docs") inp =
      Except.ok "Error: service_name and provider are required" := by
  subst hinp
  unfold execute_tool
  have hf1 : (Json.str "search_cloud_provider_docs" ==
      Json.str "get_aws_service_docs") = false := rfl
  rw [hf1]
  simp only [Bool.false_eq_true, if_false]
  rw [if_pos (str_beq_self "search_cloud_provider_docs")]
  unfold execute_cloud_docs_search_tool
  rcases hmiss with hm | hm
  · simp only [pyGetDef, hm, Bool.not_false, Bool.true_or, if_true]
  · simp only [pyGetDef, hm, Bool.not_false, Bool.or_true, if_true]

/-- C9: for every well-shaped tool request, the tool layer yields a
tool-result block rather than an uncaught exception; an unrecognized name
surfaces as an error-status tool result; missing required input fields
yield an embedded error string in a success-status result; the batch
processor returns one result per request and never raises. -/
theorem c9_tool_layer (ddgs : DdgsOracle) (blocks : List Json)
    (h : ∀ b ∈ blocks, toolBlockShaped b = true) :
    process_tool_use_requests ddgs blocks =
      Except.ok (blocks.map (handledOf ddgs)) ∧
    (∀ b ∈ blocks, isToolResultShaped (handledOf ddgs b) = true) ∧
    (∀ b ∈ blocks,
      toolNameOf b ≠ Json.str "get_aws_service_docs" →
      toolNameOf b ≠ Json.str "search_cloud_provider_docs" →
      toolResultStatusOf (handledOf ddgs b) = Json.str "error") ∧
    (∀ b ∈ blocks, ∀ ifs : List (String × Json),
      toolNameOf b = Json.str "get_aws_service_docs" →
      toolInputOf b = Json.obj ifs →
      jsonTruthy ((lookupKey ifs "service_name").getD Json.null) = false →
      toolResultStatusOf (handledOf ddgs b) = Json.str "success" ∧
      toolResultTextOf (handledOf ddgs b) =
        Json.str "Error: service_name is required") ∧
    (∀ b ∈ blocks, ∀ ifs : List (String × Json),
      toolNameOf b = Json.str "search_cloud_provider_docs" →
      toolInputOf b = Json.obj ifs →
      (jsonTruthy ((lookupKey ifs "service_name").getD Json.null) = false ∨
       jsonTruthy ((lookupKey ifs "provider").getD Json.null) = false) →
      toolResultStatusOf (handledOf ddgs b) = Json.str "success" ∧
      toolResultTextOf (handledOf ddgs b) =
        Json.str "Error: service_name and provider are required") := by
  refine ⟨process_tool_use_ok ddgs blocks h, ?_, ?_, ?_, ?_⟩
  · intro b hb
    rw [handledOf_eq ddgs b (h b hb)]
    cases execute_tool ddgs (toolNameOf b) (toolInputOf b) <;> rfl
  · intro b hb h1 h2
    rw [handledOf_eq ddgs b (h b hb), execute_unknown ddgs _ _ h1 h2]
    rfl
  · intro b hb ifs hname hinp hmiss
    rw [handledOf_eq ddgs b (h b hb), hname,
      execute_aws_missing ddgs _ ifs hinp hmiss]
    exact ⟨rfl, rfl⟩
  · intro b hb ifs hname hinp hmiss
    rw [handledOf_eq ddgs b (h b hb), hname,
      execute_cloud_missing ddgs _ ifs hinp hmiss]
    exact ⟨rfl, rfl⟩

/-- Tool requests used in the C9 witness: an unknown tool and an AWS docs
request without a service name. -/
def c9Blocks : List Json :=
  [Json.obj [("toolUse", Json.obj [("toolUseId", Json.str "t1"),
    ("name", Json.str "bogus_tool"), ("input", Json.obj [])])],
   Json.obj [("toolUse", Json.obj [("toolUseId", Json.str "t2"),
    ("name", Json.str "get_aws_service_docs"), ("input", Json.obj [])])]]

/-- Witness for C9 at those two concrete requests. -/
theorem c9_tool_layer_witness :
    (∀ b ∈ c9Blocks, toolBlockShaped b = true) ∧
    (process_tool_use_requests none c9Blocks =
      Except.ok (c9Blocks.map (handledOf none)) ∧
    (∀ b ∈ c9Blocks, isToolResultShaped (handledOf none b) = true) ∧
    (∀ b ∈ c9Blocks,
      toolNameOf b ≠ Json.str "get_aws_service_docs" →
      toolNameOf b ≠ Json.str "search_cloud_provider_docs" →
      toolResultStatusOf (handledOf none b) = Json.str "error") ∧
    (∀ b ∈ c9Blocks, ∀ ifs : List (String × Json),
      toolNameOf b = Json.str "get_aws_service_docs" →
      toolInputOf b = Json.obj ifs →
      jsonTruthy ((lookupKey ifs "service_name").getD Json.null) = false →
      toolResultStatusOf (handledOf none b) = Json.str "success" ∧
      toolResultTextOf (handledOf none b) =
        Json.str "Error: service_name is required") ∧
    (∀ b ∈ c9Blocks, ∀ ifs : List (String × Json),
      toolNameOf b = Json.str "search_cloud_provider_docs" →
      toolInputOf b = Json.obj ifs →
      (jsonTruthy ((lookupKey ifs "service_name").getD Json.null) = false ∨
       jsonTruthy ((lookupKey ifs "provider").getD Json.null) = false) →
      toolResultStatusOf (handledOf none b) = Json.str "success" ∧
      toolResultTextOf (handledOf none b) =
        Json.str "Error: service_name and provider are required")) :=
  ⟨by
    intro b hb
    simp only [c9Blocks, List.mem_cons, List.not_mem_nil, or_false] at hb
    rcases hb with h | h <;> subst h <;> rfl,
   c9_tool_layer none c9Blocks (by
    intro b hb
    simp only [c9Blocks, List.mem_cons, List.not_mem_nil, or_false] at hb
    rcases hb with h | h <;> subst h <;> rfl)⟩

/-- Appending to one list object leaves every other object unchanged. -/
theorem storeGet_storeAppend_ne (st : MsgStore) (r rp : ℕ) (v : Json)
    (h : r ≠ rp) : storeGet (storeAppend st rp v) r = storeGet st r := by
  unfold storeAppend storeSet storeGet
  simp only [List.getD_eq_getElem?_getD, List.getElem?_set_ne (Ne.symm h)]

/-- Appending to a list object allocates nothing. -/
theorem storeAppend_length (st : MsgStore) (r : ℕ) (v : Json) :
    (storeAppend st r v).length = st.length := by
  unfold storeAppend storeSet
  simp

/-- Allocation does not disturb existing objects. -/
theorem storeGet_append_left (st : MsgStore) (v : List Json) (r : ℕ)
    (h : r < st.length) : storeGet (st ++ [v]) r = storeGet st r := by
  unfold storeGet
  simp only [List.getD_eq_getElem?_getD, List.getElem?_append_left h]

/-- The tool loop touches only the cell `msgsRef`: it preserves the heap
size and every other cell. -/
theorem toolLoopStGo_frame (ddgs : DdgsOracle)
    (responder : ℕ → Except String Json) (maxToolIterations msgsRef : ℕ) :
    ∀ fuel iter st,
      (toolLoopStGo ddgs responder maxToolIterations msgsRef
        fuel iter st).2.length = st.length ∧
      ∀ r, r ≠ msgsRef →
        storeGet (toolLoopStGo ddgs responder maxToolIterations msgsRef
          fuel iter st).2 r = storeGet st r := by
  intro fuel
  induction fuel with
  | zero => intro iter st; exact ⟨rfl, fun r _ => rfl⟩
  | succ fuel ih =>
      intro iter st
      simp only [toolLoopStGo]
      cases hR : responder iter with
      | error e => exact ⟨rfl, fun r _ => rfl⟩
      | ok resp =>
          dsimp only
          cases hT : is_tool_use_response resp with
          | error pe => exact ⟨rfl, fun r _ => rfl⟩
          | ok b =>
              cases b with
              | false =>
                  dsimp only
                  cases hS : parse_score_response resp with
                  | error pe => exact ⟨rfl, fun r _ => rfl⟩
                  | ok o =>
                      cases o with
                      | none => exact ⟨rfl, fun r _ => rfl⟩
                      | some s => exact ⟨rfl, fun r _ => rfl⟩
              | true =>
                  dsimp only
                  cases hM : get_response_message resp with
                  | error pe => exact ⟨rfl, fun r _ => rfl⟩
                  | ok am =>
                      dsimp only
                      cases hX : extract_tool_requests resp with
                      | error pe =>
                          exact ⟨storeAppend_length st msgsRef am,
                            fun r hr => storeGet_storeAppend_ne st r msgsRef am hr⟩
                      | ok reqs =>
                          dsimp only
                          cases hP : process_tool_use_requests ddgs reqs with
                          | error pe =>
                              exact ⟨storeAppend_length st msgsRef am,
                                fun r hr => storeGet_storeAppend_ne st r msgsRef am hr⟩
                          | ok trs =>
                              obtain ⟨hl, hg⟩ := ih (iter + 1)
                                (storeAppend (storeAppend st msgsRef am) msgsRef
                                  (create_tool_result_message trs))
                              exact ⟨hl.trans ((storeAppend_length _ _ _).trans
                                  (storeAppend_length st msgsRef am)),
                                fun r hr => (hg r hr).trans
                                  ((storeGet_storeAppend_ne _ r msgsRef _ hr).trans
                                    (storeGet_storeAppend_ne st r msgsRef am hr))⟩

/-- The retry loop never writes to a cell below the initial heap size: in
particular the seed cell survives every attempt untouched. -/
theorem scoreAttemptsSt_frame (ddgs : DdgsOracle)
    (responder : ℕ → ℕ → Except String Json) (baseRef : ℕ)
    (serviceName provider : String) (maxToolIterations maxRetries : ℕ) :
    ∀ remaining attempt st, baseRef < st.length →
      storeGet (scoreAttemptsSt ddgs responder baseRef serviceName provider
        maxToolIterations maxRetries remaining attempt st).2 baseRef =
        storeGet st baseRef := by
  intro remaining
  induction remaining with
  | zero => intro attempt st _; rfl
  | succ remaining ih =>
      intro attempt st hlt
      have hne : baseRef ≠ st.length := Nat.ne_of_lt hlt
      simp only [scoreAttemptsSt, storeAlloc]
      obtain ⟨hl, hg⟩ := toolLoopStGo_frame ddgs (responder attempt)
        maxToolIterations st.length maxToolIterations 0
        (storeAppend (st ++ [storeGet st baseRef]) st.length
          (scoreUserMessage serviceName provider))
      have hframe : storeGet (toolLoopStGo ddgs (responder attempt)
          maxToolIterations st.length maxToolIterations 0
          (storeAppend (st ++ [storeGet st baseRef]) st.length
            (scoreUserMessage serviceName provider))).2 baseRef =
          storeGet st baseRef := by
        rw [hg baseRef hne, storeGet_storeAppend_ne _ baseRef st.length _ hne]
        exact storeGet_append_left st _ baseRef hlt
      have hlen : (toolLoopStGo ddgs (responder attempt)
          maxToolIterations st.length maxToolIterations 0
          (storeAppend (st ++ [storeGet st baseRef]) st.length
            (scoreUserMessage serviceName provider))).2.length =
          st.length + 1 := by
        rw [hl, storeAppend_length]
        simp
      cases hE : toolLoopStGo ddgs (responder attempt)
          maxToolIterations st.length maxToolIterations 0
          (storeAppend (st ++ [storeGet st baseRef]) st.length
            (scoreUserMessage serviceName provider)) with
      | mk res st2 =>
          rw [hE] at hframe hlen
          cases res with
          | ok s => exact hframe
          | error e =>
              dsimp only
              by_cases hA : attempt = maxRetries - 1
              · rw [if_pos hA]
                exact hframe
              · rw [if_neg hA]
                have hlen2 : st2.length = st.length + 1 := hlen
                have hlt2 : baseRef < st2.length := by
                  rw [hlen2]
                  exact Nat.lt_succ_of_lt hlt
                exact (ih (attempt + 1) st2 hlt2).trans hframe

/-- C10: scoring a service never mutates the shared conversation seed.
In the heap model of Python list aliasing, the seed cell `baseRef` holds
the same turn sequence after `score_service_with_tools` runs — with any
responder, oracle, iteration cap and retry budget — because each attempt
copies the seed into a fresh cell and appends only to that copy. -/
theorem c10_seed_unmutated (ddgs : DdgsOracle)
    (responder : ℕ → ℕ → Except String Json) (baseRef : ℕ)
    (serviceName provider : String) (maxToolIterations maxRetries : ℕ)
    (st : MsgStore) (h : baseRef < st.length) :
    storeGet (scoreServiceSt ddgs responder baseRef serviceName provider
      maxToolIterations maxRetries st).2 baseRef = storeGet st baseRef :=
  scoreAttemptsSt_frame ddgs responder baseRef serviceName provider
    maxToolIterations maxRetries maxRetries 0 st h

/-- Witness for C10: a concrete two-retry run over a one-cell heap holding
the seed leaves the seed cell intact. -/
theorem c10_seed_unmutated_witness :
    0 < ([[Json.str "seed-system-turn"]] : MsgStore).length ∧
    storeGet (scoreServiceSt none (fun _ _ => Except.error "model unavailable")
      0 "AmazonEC2" "AWS" 2 2 [[Json.str "seed-system-turn"]]).2 0 =
      storeGet [[Json.str "seed-system-turn"]] 0 :=
  ⟨by decide,
   c10_seed_unmutated none (fun _ _ => Except.error "model unavailable")
     0 "AmazonEC2" "AWS" 2 2 [[Json.str "seed-system-turn"]] (by decide)⟩

/-- The backtick character opening a code fence. -/
def btickC : Char := Char.ofNat 96

/-- The text extractor returns a lone text block verbatim. -/
theorem extract_text_mkTextResponse (t : String) :
    extract_text_from_response (mkTextResponse t) = Except.ok t := rfl

/-- A list followed by anything passes the `isPrefixOf` test. -/
theorem isPrefixOf_append_self (l r : List Char) :
    l.isPrefixOf (l ++ r) = true := by
  induction l with
  | nil => simp [ List.isPrefixOf]
  | cons a as ih => simp [ List.isPrefixOf, ih]

/-- Substring search across a backtick-free stretch locates a pattern that
starts with a backtick exactly at the splice point. -/
theorem findSubAux_fence (pat : List Char) (tl : List Char)
    (hpat : pat = btickC :: tl) :
    ∀ (pre rest : List Char) (k : ℕ), (∀ c ∈ pre, c ≠ btickC) →
      findSubAux pat (pre ++ (pat ++ rest)) k = some (k + pre.length) := by
  intro pre
  induction pre with
  | nil =>
      intro rest k _
      rw [List.nil_append]
      have hp : pat.isPrefixOf (pat ++ rest) = true := isPrefixOf_append_self pat rest
      cases hpc : pat ++ rest with
      | nil =>
          rw [hpat] at hpc
          simp at hpc
      | cons c cs =>
          rw [hpc] at hp
          simp only [findSubAux, hp, if_true]
          simp
  | cons c pre ih =>
      intro rest k hfree
      have hc : c ≠ btickC := hfree c (List.mem_cons_self c pre)
      have hbe : (btickC == c) = false := beq_false_of_ne (Ne.symm hc)
      have hnp : pat.isPrefixOf (c :: (pre ++ (pat ++ rest))) = false := by
        rw [hpat]
        simp [ List.isPrefixOf, hbe]
      rw [List.cons_append]
      simp only [findSubAux, hnp, Bool.false_eq_true, if_false]
      rw [ih rest (k + 1) (fun x hx => hfree x (List.mem_cons_of_mem c hx))]
      simp only [List.length_cons]
      congr 1
      omega

/-- First-occurrence search for a fenced pattern after a backtick-free
stretch. -/
theorem findSub_fence (pat tl pre rest : List Char) (hpat : pat = btickC :: tl)
    (hfree : ∀ c ∈ pre, c ≠ btickC) :
    findSub pat (pre ++ (pat ++ rest)) = some pre.length := by
  unfold findSub
  rw [findSubAux_fence pat tl hpat pre rest 0 hfree]
  simp

/-- The first fenced JSON block wins: on text that splices `body` between
the first ```json fence and the next closing fence, `parse_json_from_text`
parses exactly the stripped `body`. -/
theorem parse_json_first_block (pre body suf : List Char) (v : Json)
    (hpre : ∀ c ∈ pre, c ≠ btickC)
    (hbody : ∀ c ∈ body, c ≠ btickC)
    (hload : jsonLoads (stripChars body) = some v) :
    parse_json_from_text (pre ++ (patJson ++ (body ++ (patFence ++ suf)))) =
      some v := by
  have hfind : findSub patJson (pre ++ (patJson ++ (body ++ (patFence ++ suf)))) =
      some pre.length :=
    findSub_fence patJson ("``json".data) pre (body ++ (patFence ++ suf)) rfl hpre
  have hcont : containsSub patJson
      (pre ++ (patJson ++ (body ++ (patFence ++ suf)))) = true := by
    unfold containsSub
    rw [hfind]
    rfl
  have hdrop : (pre ++ (patJson ++ (body ++ (patFence ++ suf)))).drop
      (pre.length + 7) = body ++ (patFence ++ suf) := by
    have h1 : pre ++ (patJson ++ (body ++ (patFence ++ suf))) =
        (pre ++ patJson) ++ (body ++ (patFence ++ suf)) := by
      rw [List.append_assoc]
    have h2 : (pre ++ patJson).length = pre.length + 7 := by
      rw [List.length_append]
      rfl
    rw [h1, ← h2, List.drop_left]
  have hfence : findFrom patFence (pre ++ (patJson ++ (body ++ (patFence ++ suf))))
      (pre.length + 7) = some (pre.length + 7 + body.length) := by
    unfold findFrom
    rw [hdrop]
    exact findSubAux_fence patFence ("``".data) rfl body suf (pre.length + 7) hbody
  have hslice : sliceList (pre ++ (patJson ++ (body ++ (patFence ++ suf))))
      (pre.length + 7) (pre.length + 7 + body.length) = body := by
    unfold sliceList
    rw [hdrop]
    have h3 : pre.length + 7 + body.length - (pre.length + 7) = body.length := by
      omega
    rw [h3]
    exact List.take_left body (patFence ++ suf)
  simp only [parse_json_from_text, hcont, if_true, hfind, hfence, hslice, hload]

/-- C4 amended (minimal correction): only the FIRST ```json fenced block
is consulted, and the 7 criteria must sit under a `scores` key (or
`properties.scores`) of the parsed object. When the first block's body
parses to such an object and score extraction yields exactly 7 criterion
scores, `parse_score_response` returns the 2-decimal rounding of their
mean; a response may well contain a well-formed 7-criteria block and still
yield no score if an earlier ```json block preempts it (see the
counterexample). -/
theorem c4_amended (pre body suf : List Char) (fields : List (String × Json))
    (scores : List (String × ℚ))
    (hpre : ∀ c ∈ pre, c ≠ btickC)
    (hbody : ∀ c ∈ body, c ≠ btickC)
    (hload : jsonLoads (stripChars body) = some (Json.obj fields))
    (hex : extract_scores_from_json (Json.obj fields) = Except.ok (some scores))
    (hlen : scores.length = 7) :
    parse_score_response (mkTextResponse (String.mk
      (pre ++ (patJson ++ (body ++ (patFence ++ suf)))))) =
      Except.ok (some (pyRound2 ((scores.map Prod.snd).sum / 7))) := by
  have htext := extract_text_mkTextResponse
    (String.mk (pre ++ (patJson ++ (body ++ (patFence ++ suf)))))
  have hparse := parse_json_first_block pre body suf (Json.obj fields)
    hpre hbody hload
  have hne : fields ≠ [] := by
    intro h
    subst h
    rw [show extract_scores_from_json (Json.obj []) = Except.ok none from rfl] at hex
    simp at hex
  have htruthy : jsonTruthy (Json.obj fields) = true := by
    cases fields with
    | nil => exact absurd rfl hne
    | cons f fs => rfl
  have hnonempty :
      ¬(String.mk (pre ++ (patJson ++ (body ++ (patFence ++ suf)))) = "") := by
    intro h
    have h2 : (pre ++ (patJson ++ (body ++ (patFence ++ suf)))) =
        ([] : List Char) := congrArg String.data h
    have h3 := congrArg List.length h2
    simp only [List.length_append, List.length_nil,
      show patJson.length = 7 from rfl, show patFence.length = 3 from rfl] at h3
    omega
  have hemp : scores.isEmpty = false := by
    cases scores with
    | nil => simp at hlen
    | cons a as => rfl
  have havg : calculate_average_score scores =
      some (pyRound2 ((scores.map Prod.snd).sum / 7)) := by
    unfold calculate_average_score
    simp only [hemp, Bool.false_eq_true, if_false]
    rw [if_neg (by omega : ¬scores.length ≠ 7), hlen]
    norm_num
  unfold parse_score_response
  rw [htext]
  dsimp only
  rw [if_neg hnonempty]
  rw [hparse]
  dsimp only
  simp only [htruthy, Bool.not_true, Bool.false_eq_true, if_false]
  rw [hex]
  dsimp only
  simp only [hemp, Bool.false_eq_true, if_false]
  rw [havg]

/-- A ```json block holding exactly 7 criteria, each of the form
score 2, as in the specification's first example. -/
def c4GoodBlock : String :=
  "```json\n\x7b\"scores\": \x7b\"a\": \x7b\"score\": 2\x7d, \"b\": \x7b\"score\": 2\x7d, \"c\": \x7b\"score\": 2\x7d, \"d\": \x7b\"score\": 2\x7d, \"e\": \x7b\"score\": 2\x7d, \"f\": \x7b\"score\": 2\x7d, \"g\": \x7b\"score\": 2\x7d\x7d\x7d\n```"

/-- The same block preceded by an earlier ```json block holding `[1]`. -/
def c4BadText : String := "```json\n[1]\n```\n" ++ c4GoodBlock

set_option maxRecDepth 40000 in
/-- C4 counterexample: `c4BadText` contains (as a literal suffix) a
```json block holding exactly 7 criteria each with score 2, for which the
claim demands the parsed score 2.00 — and that block alone indeed parses
to 2.00. But an earlier ```json block holding `[1]` preempts it: the list
parses, no `scores` key is found in it, and the pipeline yields no score
at all. -/
theorem c4_counterexample :
    c4BadText = "```json\n[1]\n```\n" ++ c4GoodBlock ∧
    parse_score_response (mkTextResponse c4GoodBlock) = Except.ok (some 2) ∧
    parse_score_response (mkTextResponse c4BadText) = Except.ok none :=
  ⟨rfl, by with_unfolding_all rfl, by with_unfolding_all rfl⟩

/-- Body of the fenced block in the C4 witness: 7 criteria scored 1..7. -/
def c4Body : List Char :=
  "\n\x7b\"scores\": \x7b\"a\": \x7b\"score\": 1\x7d, \"b\": \x7b\"score\": 2\x7d, \"c\": \x7b\"score\": 3\x7d, \"d\": \x7b\"score\": 4\x7d, \"e\": \x7b\"score\": 5\x7d, \"f\": \x7b\"score\": 6\x7d, \"g\": \x7b\"score\": 7\x7d\x7d\x7d\n".data

/-- The object that body parses to. -/
def c4Fields : List (String × Json) :=
  [("scores", Json.obj
    [("a", Json.obj [("score", Json.num 1)]),
     ("b", Json.obj [("score", Json.num 2)]),
     ("c", Json.obj [("score", Json.num 3)]),
     ("d", Json.obj [("score", Json.num 4)]),
     ("e", Json.obj [("score", Json.num 5)]),
     ("f", Json.obj [("score", Json.num 6)]),
     ("g", Json.obj [("score", Json.num 7)])])]

/-- The extracted criterion scores of the C4 witness. -/
def c4Scores : List (String × ℚ) :=
  [("a", 1), ("b", 2), ("c", 3), ("d", 4), ("e", 5), ("f", 6), ("g", 7)]

set_option maxRecDepth 40000 in
/-- Witness for the amended C4: the scores 1..7 of the specification's
second example, spliced as the first fenced block, parse to the rounded
mean (4.00). -/
theorem c4_amended_witness :
    ((∀ c ∈ ([] : List Char), c ≠ btickC) ∧
     (∀ c ∈ c4Body, c ≠ btickC) ∧
     jsonLoads (stripChars c4Body) = some (Json.obj c4Fields) ∧
     extract_scores_from_json (Json.obj c4Fields) = Except.ok (some c4Scores) ∧
     c4Scores.length = 7) ∧
    parse_score_response (mkTextResponse (String.mk
      ([] ++ (patJson ++ (c4Body ++ (patFence ++ ([] : List Char))))))) =
      Except.ok (some (pyRound2 ((c4Scores.map Prod.snd).sum / 7))) :=
  ⟨⟨fun c hc => absurd hc (List.not_mem_nil c),
    fun c hc => bne_iff_ne.mp (List.all_eq_true.mp
      (show c4Body.all (fun x => x != btickC) = true from
        by with_unfolding_all rfl) c hc),
    by with_unfolding_all rfl,
    by with_unfolding_all rfl,
    rfl⟩,
   c4_amended [] c4Body [] c4Fields c4Scores
     (fun c hc => absurd hc (List.not_mem_nil c))
     (fun c hc => bne_iff_ne.mp (List.all_eq_true.mp
       (show c4Body.all (fun x => x != btickC) = true from
         by with_unfolding_all rfl) c hc))
     (by with_unfolding_all rfl)
     (by with_unfolding_all rfl)
     rfl⟩
